import Mathlib

/-! # mqttTamBox: the constant tables of the track-authority protocol

A shallow embedding of `src/mqttTamBox/mqttTamBox.h` (software version "ver 2.0.12").
The header fixes the numbering of the track states, the traffic directions, the
topic segments, the pending-request queue columns and the configuration
parameters, together with the strings of the MQTT vocabulary and of the display.
The two older headers under `software/` are embedded in the namespaces `SixState` and
`Ver110`. The protocol engine, which is not among the sources, is modelled from the
specification over the codes of the header.

* An anonymous C `enum {A, B, C}` is embedded as the list of its enumerator names;
  the code of an enumerator is its position in that list (`enumCode`), which is the
  value C gives an enumerator without an initialiser.
* A `#define NAME value` is embedded as a definition `NAME := value`.
* An array the header declares in a comment (`uint8_t traffDir[DEST_BUTTONS][MAX_NUM_OF_TRACKS]`)
  is embedded by its shape, with the C rule for the offset of `a[i][j]`.
-/

namespace MqttTamBox

/-! ## C enumerations and arrays -/

/-- Code of the enumerator `name` in an enumeration declared without initialisers:
the first enumerator is 0 and each following one is one more than its predecessor.
A name that is not declared gets the length of the declaration, which is no code. -/
def enumCode (decl : List String) (name : String) : Nat :=
  decl.indexOf name

/-- Shape of a two-dimensional C array `a[rows][cols]`. -/
structure Array2 where
  rows : Nat
  cols : Nat
deriving DecidableEq, Repr

/-- Number of elements of `a[rows][cols]`. -/
def Array2.size (a : Array2) : Nat :=
  a.rows * a.cols

/-- Offset, in elements, of `a[i][j]` from the start of the array (row-major). -/
def Array2.offset (a : Array2) (i j : Nat) : Nat :=
  i * a.cols + j

/-- The access `a[i][j]` stays inside row `i` and inside the array. -/
def Array2.inBounds (a : Array2) (i j : Nat) : Bool :=
  decide (i < a.rows) && decide (j < a.cols)

/-! ## Timers (header lines 45-49) -/

def TIME_BEEP_DURATION : Nat := 1000
def TIME_BEEP_PAUS : Nat := 2000
def TIME_PING_INTERVAL : Nat := 10000
def TIME_TOGGLE_TRACK : Nat := 2000

/-! ## TamBox node configuration (header lines 94-107) -/

def CONFIG_DEST : Nat := 9
def CONFIG_PARAM : Nat := 8

/-- The configuration parameter enumeration, `enum {ID, SIGN, ..., TYPE}`. -/
def configParamEnum : List String :=
  ["ID", "SIGN", "NAME", "NUMOFDEST", "TRACKS", "EXIT", "TOTTRACKS", "TYPE"]

def ID : Nat := enumCode configParamEnum "ID"
def SIGN : Nat := enumCode configParamEnum "SIGN"
def NAME : Nat := enumCode configParamEnum "NAME"
def NUMOFDEST : Nat := enumCode configParamEnum "NUMOFDEST"
def TRACKS : Nat := enumCode configParamEnum "TRACKS"
def EXIT : Nat := enumCode configParamEnum "EXIT"
def TOTTRACKS : Nat := enumCode configParamEnum "TOTTRACKS"
def TYPE : Nat := enumCode configParamEnum "TYPE"

/-- Shape of `String tamBoxConfig[CONFIG_DEST][CONFIG_PARAM]`. -/
def tamBoxConfig : Array2 := ⟨CONFIG_DEST, CONFIG_PARAM⟩

/-! ## Destinations (header lines 109-126) -/

def DEST_BUTTONS : Nat := 4
def NUM_OF_DEST_STRINGS : Nat := 12

/-- The destination enumeration, `enum {DEST_A, ..., DEST_NOT_SELECTED}`. -/
def destEnum : List String :=
  ["DEST_A", "DEST_B", "DEST_C", "DEST_D", "OWN",
   "DEST_A_RIGHT", "DEST_B_RIGHT", "DEST_C_RIGHT", "DEST_D_RIGHT",
   "DEST_CONFIG", "DEST_ALL_DEST", "DEST_NOT_SELECTED"]

def DEST_A : Nat := enumCode destEnum "DEST_A"
def DEST_B : Nat := enumCode destEnum "DEST_B"
def DEST_C : Nat := enumCode destEnum "DEST_C"
def DEST_D : Nat := enumCode destEnum "DEST_D"
def OWN : Nat := enumCode destEnum "OWN"
def DEST_A_RIGHT : Nat := enumCode destEnum "DEST_A_RIGHT"
def DEST_B_RIGHT : Nat := enumCode destEnum "DEST_B_RIGHT"
def DEST_C_RIGHT : Nat := enumCode destEnum "DEST_C_RIGHT"
def DEST_D_RIGHT : Nat := enumCode destEnum "DEST_D_RIGHT"
def DEST_CONFIG : Nat := enumCode destEnum "DEST_CONFIG"
def DEST_ALL_DEST : Nat := enumCode destEnum "DEST_ALL_DEST"
def DEST_NOT_SELECTED : Nat := enumCode destEnum "DEST_NOT_SELECTED"

/-! ## Tambox states (header lines 165-181) -/

def NUM_OF_STATES : Nat := 10

/-- The track state enumeration, `enum {_NOTUSED, _IDLE, ..., _LOST}`. -/
def trackStateEnum : List String :=
  ["_NOTUSED", "_IDLE", "_TRAFDIR", "_INREQUEST", "_INACCEPT", "_INTRAIN",
   "_OUTREQUEST", "_OUTACCEPT", "_OUTTRAIN", "_LOST"]

def _NOTUSED : Nat := enumCode trackStateEnum "_NOTUSED"
def _IDLE : Nat := enumCode trackStateEnum "_IDLE"
def _TRAFDIR : Nat := enumCode trackStateEnum "_TRAFDIR"
def _INREQUEST : Nat := enumCode trackStateEnum "_INREQUEST"
def _INACCEPT : Nat := enumCode trackStateEnum "_INACCEPT"
def _INTRAIN : Nat := enumCode trackStateEnum "_INTRAIN"
def _OUTREQUEST : Nat := enumCode trackStateEnum "_OUTREQUEST"
def _OUTACCEPT : Nat := enumCode trackStateEnum "_OUTACCEPT"
def _OUTTRAIN : Nat := enumCode trackStateEnum "_OUTTRAIN"
def _LOST : Nat := enumCode trackStateEnum "_LOST"

/-- The track enumeration, `enum {LEFT_TRACK, RIGHT_TRACK}`. -/
def trackEnum : List String := ["LEFT_TRACK", "RIGHT_TRACK"]

def LEFT_TRACK : Nat := enumCode trackEnum "LEFT_TRACK"
def RIGHT_TRACK : Nat := enumCode trackEnum "RIGHT_TRACK"
def DEST_TRAIN_0 : Nat := 0

/-! ## Incoming MQTT topics (header lines 184-196) -/

def NUM_OF_TOPICS : Nat := 6

/-- The topic segment enumeration, `enum {TOPIC_MSGTYPE, ..., TOPIC_ORDER}`. -/
def topicEnum : List String :=
  ["TOPIC_MSGTYPE", "TOPIC_SCALE", "TOPIC_TYPE", "TOPIC_NODE_ID", "TOPIC_PORT_ID", "TOPIC_ORDER"]

def TOPIC_MSGTYPE : Nat := enumCode topicEnum "TOPIC_MSGTYPE"
def TOPIC_SCALE : Nat := enumCode topicEnum "TOPIC_SCALE"
def TOPIC_TYPE : Nat := enumCode topicEnum "TOPIC_TYPE"
def TOPIC_NODE_ID : Nat := enumCode topicEnum "TOPIC_NODE_ID"
def TOPIC_PORT_ID : Nat := enumCode topicEnum "TOPIC_PORT_ID"
def TOPIC_ORDER : Nat := enumCode topicEnum "TOPIC_ORDER"

/-- The topics the header quotes as examples of incoming topics (lines 184-187). -/
def exampleTopics : List String :=
  ["cmd/h0/node/tambox-1/inventory/req", "cmd/h0/tam/tambox-1/a/req",
   "cmd/h0/tam/tambox-1/a/res", "dt/h0/ping/tambox-1"]

/-- Segments of a topic: the pieces between the `/` separators. -/
def splitTopic (topic : String) : List String :=
  (topic.toList.splitOn '/').map String.mk

/-! ## Incoming dt queue (header lines 201-205) -/

/-- The queue activity enumeration, `enum {Q_INACTIVE, Q_ACTIVE}`. -/
def queueFlagEnum : List String := ["Q_INACTIVE", "Q_ACTIVE"]

def Q_INACTIVE : Nat := enumCode queueFlagEnum "Q_INACTIVE"
def Q_ACTIVE : Nat := enumCode queueFlagEnum "Q_ACTIVE"

def Q_DATA : Nat := 4

/-- The queue column enumeration, `enum {Q_STATE, Q_TRACK, Q_ORDERCODE, Q_TRAIN}`. -/
def queueDataEnum : List String := ["Q_STATE", "Q_TRACK", "Q_ORDERCODE", "Q_TRAIN"]

def Q_STATE : Nat := enumCode queueDataEnum "Q_STATE"
def Q_TRACK : Nat := enumCode queueDataEnum "Q_TRACK"
def Q_ORDERCODE : Nat := enumCode queueDataEnum "Q_ORDERCODE"
def Q_TRAIN : Nat := enumCode queueDataEnum "Q_TRAIN"

/-- Shape of `uint16_t dtInQueue[DEST_BUTTONS][Q_DATA]`. -/
def dtInQueue : Array2 := ⟨DEST_BUTTONS, Q_DATA⟩

/-! ## MQTT topic strings (header lines 207-217) -/

/-- The publish kind enumeration, `enum {_REQUEST, _RESPONSE, _DATA}`. -/
def publishEnum : List String := ["_REQUEST", "_RESPONSE", "_DATA"]

def COMMAND : String := "cmd"
def DATA : String := "dt"
def TAM : String := "tam"
def NODE : String := "node"
def TOWER : String := "tower"
def PING : String := "ping"
def INVENTORY : String := "inventory"
def REQUEST : String := "req"
def RESPONSE : String := "res"

/-- The strings the header marks `Message type`. -/
def messageTypes : List String := [COMMAND, DATA]

/-- The strings the header marks `Body type`. -/
def bodyTypes : List String := [TAM, NODE, TOWER, PING]

/-- The strings the header marks `Message subtype used in cmd`. -/
def messageSubtypes : List String := [REQUEST, RESPONSE]

/-! ## MQTT body strings (header lines 219-251) -/

def VERSION : String := "version"
def TIMESTAMP : String := "timestamp"
def SESSION_ID : String := "session-id"
def RESPOND_TO : String := "respond-to"
def TRACK : String := "track"
def NODE_ID : String := "node-id"
def PORT_ID : String := "port-id"
def TRAIN_ID : String := "identity"
def STATE : String := "state"
def DESIRED : String := "desired"
def ACCEPT : String := "accept"
def CANCEL : String := "cancel"
def REJECT : String := "reject"
def REPORTED : String := "reported"
def ACCEPTED : String := "accepted"
def CANCELED : String := "canceled"
def REJECTED : String := "rejected"
def LOST : String := "lost"
def READY : String := "ready"
def IN : String := "in"
def OUT : String := "out"
def LEFT : String := "left"
def RIGHT : String := "right"
def METADATA : String := "metadata"
def M_ID : String := "id"
def M_TYPE : String := "type"
def M_VER : String := "ver"
def M_NAME : String := "name"
def M_SIGN : String := "sign"
def M_RSSI : String := "rssi"

/-- The strings defined between `DESIRED` and `REPORTED`: the desired states. -/
def desiredStates : List String := [ACCEPT, CANCEL, REJECT]

/-- The strings defined between `REPORTED` and `METADATA`: the reported states. -/
def reportedStates : List String :=
  [ACCEPTED, CANCELED, REJECTED, LOST, READY, IN, OUT, LEFT, RIGHT]

/-- The strings the header marks `Used in metadata`. -/
def metadataKeys : List String := [M_ID, M_TYPE, M_VER, M_NAME, M_SIGN, M_RSSI]

/-! ## Directions (header lines 260-269) -/

def DIR_STATES : Nat := 2

/-- The direction enumeration, `enum {DIR_OUT, DIR_IN}`. -/
def dirEnum : List String := ["DIR_OUT", "DIR_IN"]

def DIR_OUT : Nat := enumCode dirEnum "DIR_OUT"
def DIR_IN : Nat := enumCode dirEnum "DIR_IN"
def DIR_LOST : Nat := 15
def SINGLE_TRACK : Nat := 1
def DOUBLE_TRACK : Nat := 2
def MAX_NUM_OF_TRACKS : Nat := 2

/-- The traffic side enumeration, `enum {TRAFFIC_LEFT, TRAFFIC_RIGHT}`. -/
def trafficEnum : List String := ["TRAFFIC_LEFT", "TRAFFIC_RIGHT"]

def TRAFFIC_LEFT : Nat := enumCode trafficEnum "TRAFFIC_LEFT"
def TRAFFIC_RIGHT : Nat := enumCode trafficEnum "TRAFFIC_RIGHT"

/-- Shape of `uint8_t traffDir[DEST_BUTTONS][MAX_NUM_OF_TRACKS]` (and of `lastTraffDir`). -/
def traffDir : Array2 := ⟨DEST_BUTTONS, MAX_NUM_OF_TRACKS⟩

/-! ## Configuration host (header lines 73-78) -/

def DB_CONFIG_HOST : String := "http://mqtt-broker.local"
def DB_CONFIG_FILE : String := "/?id="
def DB_CONFIGFILE_LEN : Nat := 10
def DB_CONFIGPATH_LEN : Nat := 40
def DB_HOST_LEN : Nat := 30

/-! ## Station types in the received configuration (header lines 157-163) -/

def NOT_USED_T : String := "-"
def TYPE_NONE_T : String := "none"
def TYPE_SINGLE_T : String := "single"
def TYPE_SPLIT_T : String := "split"
def TYPE_LEFT_T : String := "left"
def TYPE_RIGHT_T : String := "right"
def TYPE_DOUBLE_T : String := "double"

/-- The station type strings, in the order the header defines them. -/
def stationTypes : List String :=
  [TYPE_NONE_T, TYPE_SINGLE_T, TYPE_SPLIT_T, TYPE_LEFT_T, TYPE_RIGHT_T, TYPE_DOUBLE_T]

/-- The size the header documents for the `TYPE` parameter, `max size 6 characters`
(line 106). -/
def TYPE_MAX_SIZE : Nat := 6

/-! ## Codes used when handling incoming MQTT messages (header lines 198-199) -/

/-- The order code enumeration, `enum {CODE_LOST, CODE_READY, ..., CODE_CANCELED}`. -/
def codeEnum : List String :=
  ["CODE_LOST", "CODE_READY", "CODE_TRAFDIR_REQ_IN", "CODE_TRAFDIR_RES_IN",
   "CODE_TRAFDIR_RES_OUT", "CODE_TRAIN_IN", "CODE_TRAIN_OUT", "CODE_ACCEPT",
   "CODE_ACCEPTED", "CODE_REJECTED", "CODE_CANCEL", "CODE_CANCELED"]

def CODE_LOST : Nat := enumCode codeEnum "CODE_LOST"
def CODE_READY : Nat := enumCode codeEnum "CODE_READY"
def CODE_TRAFDIR_REQ_IN : Nat := enumCode codeEnum "CODE_TRAFDIR_REQ_IN"
def CODE_TRAFDIR_RES_IN : Nat := enumCode codeEnum "CODE_TRAFDIR_RES_IN"
def CODE_TRAFDIR_RES_OUT : Nat := enumCode codeEnum "CODE_TRAFDIR_RES_OUT"
def CODE_TRAIN_IN : Nat := enumCode codeEnum "CODE_TRAIN_IN"
def CODE_TRAIN_OUT : Nat := enumCode codeEnum "CODE_TRAIN_OUT"
def CODE_ACCEPT : Nat := enumCode codeEnum "CODE_ACCEPT"
def CODE_ACCEPTED : Nat := enumCode codeEnum "CODE_ACCEPTED"
def CODE_REJECTED : Nat := enumCode codeEnum "CODE_REJECTED"
def CODE_CANCEL : Nat := enumCode codeEnum "CODE_CANCEL"
def CODE_CANCELED : Nat := enumCode codeEnum "CODE_CANCELED"

/-! ## LCD display strings (header lines 292-339) -/

/-- The string position enumeration, `enum {LCD_TRAIN, ..., LCD_DEPATURE_OK, LCD_TRAIN_ID}`. -/
def lcdEnum : List String :=
  ["LCD_TRAIN", "LCD_TRAINDIR_NOK", "LCD_DEPATURE", "LCD_TAM_CANCEL", "LCD_TAM_ACCEPT",
   "LCD_ARRIVAL", "LCD_TAM_NOK", "LCD_TAM_CANCELED", "LCD_TAM_OK", "LCD_ARRIVAL_OK",
   "LCD_DEPATURE_OK", "LCD_TRAIN_ID"]

def LCD_TRAIN : Nat := enumCode lcdEnum "LCD_TRAIN"
def LCD_TRAINDIR_NOK : Nat := enumCode lcdEnum "LCD_TRAINDIR_NOK"
def LCD_DEPATURE : Nat := enumCode lcdEnum "LCD_DEPATURE"
def LCD_TAM_CANCEL : Nat := enumCode lcdEnum "LCD_TAM_CANCEL"
def LCD_TAM_ACCEPT : Nat := enumCode lcdEnum "LCD_TAM_ACCEPT"
def LCD_ARRIVAL : Nat := enumCode lcdEnum "LCD_ARRIVAL"
def LCD_TAM_NOK : Nat := enumCode lcdEnum "LCD_TAM_NOK"
def LCD_TAM_CANCELED : Nat := enumCode lcdEnum "LCD_TAM_CANCELED"
def LCD_TAM_OK : Nat := enumCode lcdEnum "LCD_TAM_OK"
def LCD_ARRIVAL_OK : Nat := enumCode lcdEnum "LCD_ARRIVAL_OK"
def LCD_DEPATURE_OK : Nat := enumCode lcdEnum "LCD_DEPATURE_OK"
def LCD_TRAIN_ID : Nat := enumCode lcdEnum "LCD_TRAIN_ID"

def LCD_STRINGS : Nat := 11

def LCD_TRAIN_TE : String := "Dep. train#"
def LCD_TRAINDIR_NOK_TE : String := "Other stn. busy!"
def LCD_DEPATURE_TE : String := "Departure?"
def LCD_TAM_CANCEL_TE : String := "Undo TAM?"
def LCD_TAM_ACCEPT_TE : String := "Accept TAM?"
def LCD_ARRIVAL_TE : String := "Arrival?"
def LCD_TAM_NOK_TE : String := "TAM denied!"
def LCD_TAM_CANCELED_TE : String := "TAM undone!"
def LCD_TAM_OK_TE : String := "TAM accepted!"
def LCD_ARRIVAL_OK_TE : String := "Train In!"
def LCD_DEPATURE_OK_TE : String := "Train Out!"

def LCD_TRAIN_T : String := "Avgång tåg#"
def LCD_TRAINDIR_NOK_T : String := "Tågriktn. nekad!"
def LCD_DEPATURE_T : String := "Avgång?"
def LCD_TAM_CANCEL_T : String := "Ångra TAM?"
def LCD_TAM_ACCEPT_T : String := "Acceptera TAM?"
def LCD_ARRIVAL_T : String := "Ankomst?"
def LCD_TAM_NOK_T : String := "TAM nekad!"
def LCD_TAM_CANCELED_T : String := "TAM ångrad!"
def LCD_TAM_OK_T : String := "TAM accepterad!"
def LCD_ARRIVAL_OK_T : String := "Tåg In!"
def LCD_DEPATURE_OK_T : String := "Tåg Ut!"

def LCD_AP_MODE : String := "AP mode"
def LCD_STARTING_UP : String := "Starting up..."
def LCD_START_ERROR : String := "Error"
def LCD_REBOOTING : String := "Rebooting..."
def LCD_SHUTTINGDOWN : String := "Shutting down"
def LCD_WIFI_CONNECTING : String := "Connecting WiFi"
def LCD_WIFI_CONNECTED : String := "WiFi connected"
def LCD_SIGNAL : String := "Signal "
def LCD_LOADING_CONF : String := "Loading conf..."
def LCD_LOADING_CONF_OK : String := "Config loaded"
def LCD_STARTING_MQTT : String := "Starting MQTT..."
def LCD_BROKER_CONNECTED : String := "Broker connected"
def LCD_BROKER_NOT_FOUND : String := "Broker not found"
def LCD_WIFI_NOT_FOUND : String := "WiFi not found"
def LCD_LOADING_CONF_NOK : String := "Config not found"

/-- The English strings, in the order the header defines them. -/
def lcdEnglish : List String :=
  [LCD_TRAIN_TE, LCD_TRAINDIR_NOK_TE, LCD_DEPATURE_TE, LCD_TAM_CANCEL_TE, LCD_TAM_ACCEPT_TE,
   LCD_ARRIVAL_TE, LCD_TAM_NOK_TE, LCD_TAM_CANCELED_TE, LCD_TAM_OK_TE, LCD_ARRIVAL_OK_TE,
   LCD_DEPATURE_OK_TE]

/-- The Swedish strings, in the order the header defines them. -/
def lcdSwedish : List String :=
  [LCD_TRAIN_T, LCD_TRAINDIR_NOK_T, LCD_DEPATURE_T, LCD_TAM_CANCEL_T, LCD_TAM_ACCEPT_T,
   LCD_ARRIVAL_T, LCD_TAM_NOK_T, LCD_TAM_CANCELED_T, LCD_TAM_OK_T, LCD_ARRIVAL_OK_T,
   LCD_DEPATURE_OK_T]

/-- The start phase strings, in the order the header defines them. -/
def lcdStartPhase : List String :=
  [LCD_AP_MODE, LCD_STARTING_UP, LCD_START_ERROR, LCD_REBOOTING, LCD_SHUTTINGDOWN,
   LCD_WIFI_CONNECTING, LCD_WIFI_CONNECTED, LCD_SIGNAL, LCD_LOADING_CONF, LCD_LOADING_CONF_OK,
   LCD_STARTING_MQTT, LCD_BROKER_CONNECTED, LCD_BROKER_NOT_FOUND, LCD_WIFI_NOT_FOUND,
   LCD_LOADING_CONF_NOK]

/-- The width the header documents for a display string, `Max length 16 characters`. -/
def LCD_MAX_LENGTH : Nat := 16

/-- The width the header documents for `LCD_TRAIN_TE`, `Max length 11 characters`. -/
def LCD_TRAIN_MAX_LENGTH : Nat := 11

/-! ## The older headers

`software/mqttTamBox.h` is the oldest header, with six track states and a topic of
seven segments; `software/mqttTamBox/mqttTamBox.h` is the header of "ver 1.1.0", with
eight track states. Both define their codes with `#define`. -/

namespace SixState

def NUM_OF_DEST : Nat := 4
def DEST_A : Nat := 0
def DEST_B : Nat := 1
def DEST_C : Nat := 2
def DEST_D : Nat := 3
def OWN : Nat := 4

def NUM_OF_STATES : Nat := 6
def STATE_NOTUSED : Nat := 0
def STATE_IDLE : Nat := 1
def STATE_INREQUEST : Nat := 2
def STATE_INTRAIN : Nat := 3
def STATE_OUREQUEST : Nat := 4
def STATE_OUTTRAIN : Nat := 5

/-- The state codes the header defines, in the order of their definition. -/
def states : List Nat :=
  [STATE_NOTUSED, STATE_IDLE, STATE_INREQUEST, STATE_INTRAIN, STATE_OUREQUEST, STATE_OUTTRAIN]

def TOPIC_TOP : Nat := 0
def TOPIC_NODE : Nat := 1
def TOPIC_EXIT : Nat := 2
def TOPIC_TYPE : Nat := 3
def TOPIC_TRACK : Nat := 4
def TOPIC_ID : Nat := 5
def TOPIC_ORDER : Nat := 6

/-- The indices of the split topic the header defines, in the order of their definition. -/
def topicIndices : List Nat :=
  [TOPIC_TOP, TOPIC_NODE, TOPIC_EXIT, TOPIC_TYPE, TOPIC_TRACK, TOPIC_ID, TOPIC_ORDER]

end SixState

namespace Ver110

def CONFIG_DEST : Nat := 9
def DEST_A : Nat := 0
def DEST_B : Nat := 1
def DEST_C : Nat := 2
def DEST_D : Nat := 3
def OWN : Nat := 4
def DEST_A_LEFT : Nat := 0
def DEST_A_RIGHT : Nat := 5
def DEST_B_LEFT : Nat := 1
def DEST_B_RIGHT : Nat := 6
def DEST_C_LEFT : Nat := 2
def DEST_C_RIGHT : Nat := 7
def DEST_D_LEFT : Nat := 3
def DEST_D_RIGHT : Nat := 8

def NUM_OF_STATES : Nat := 8
def STATE_NOTUSED : Nat := 0
def STATE_IDLE : Nat := 1
def STATE_TRAFDIR : Nat := 2
def STATE_INREQUEST : Nat := 3
def STATE_INTRAIN : Nat := 4
def STATE_OUTREQUEST : Nat := 5
def STATE_OUTTRAIN : Nat := 6
def STATE_LOST : Nat := 7

def NUM_OF_TOPICS : Nat := 7
def TOPIC_ROOT : Nat := 0
def TOPIC_CLIENT : Nat := 1
def TOPIC_DEST : Nat := 2
def TOPIC_TYPE : Nat := 3
def TOPIC_TRACK : Nat := 4
def TOPIC_ITEM : Nat := 5
def TOPIC_ORDER : Nat := 6

end Ver110

/-! ## The state definitions of the three headers, by name -/

/-- One state of a header: the name and the code it is defined with, and the comment of
its `#define` line (an enumerator of the current header carries none). -/
structure StateDef where
  name : String
  code : Nat
  comment : String
deriving DecidableEq, Repr

/-- The states of `software/mqttTamBox.h` (lines 74-79), in the order of their definition. -/
def SixState.stateDefs : List StateDef :=
  [⟨"STATE_NOTUSED", SixState.STATE_NOTUSED, "Not used"⟩,
   ⟨"STATE_IDLE", SixState.STATE_IDLE, "Idle"⟩,
   ⟨"STATE_INREQUEST", SixState.STATE_INREQUEST, "Incoming request"⟩,
   ⟨"STATE_INTRAIN", SixState.STATE_INTRAIN, "Incoming request approved"⟩,
   ⟨"STATE_OUREQUEST", SixState.STATE_OUREQUEST, "Outgoing request"⟩,
   ⟨"STATE_OUTTRAIN", SixState.STATE_OUTTRAIN, "Outgoing request approved"⟩]

/-- The states of `software/mqttTamBox/mqttTamBox.h` (lines 116-123), in the order of their
definition. -/
def Ver110.stateDefs : List StateDef :=
  [⟨"STATE_NOTUSED", Ver110.STATE_NOTUSED, "Not used"⟩,
   ⟨"STATE_IDLE", Ver110.STATE_IDLE, "Idle"⟩,
   ⟨"STATE_TRAFDIR", Ver110.STATE_TRAFDIR, "Traffic direction sent"⟩,
   ⟨"STATE_INREQUEST", Ver110.STATE_INREQUEST, "Incoming request"⟩,
   ⟨"STATE_INTRAIN", Ver110.STATE_INTRAIN, "Incoming Train"⟩,
   ⟨"STATE_OUTREQUEST", Ver110.STATE_OUTREQUEST, "Outgoing request"⟩,
   ⟨"STATE_OUTTRAIN", Ver110.STATE_OUTTRAIN, "Outgoing Train"⟩,
   ⟨"STATE_LOST", Ver110.STATE_LOST, "Lost connection"⟩]

/-- The states of the current header: the enumerators of the track state enumeration with
their codes. -/
def currentStateDefs : List StateDef :=
  trackStateEnum.map (fun n => ⟨n, enumCode trackStateEnum n, ""⟩)

/-- The state that the header with the states `defs` defines under the name `name`, if
it defines one. -/
def stateNamed (defs : List StateDef) (name : String) : Option StateDef :=
  defs.find? (fun x => x.name == name)

/-- The name under which the 8-state header defines a state of the 6-state header: the
same name. The 6-state header writes the name of its outgoing request without the T,
`STATE_OUREQUEST`; the 8-state header defines that state, with the same comment
"Outgoing request", as `STATE_OUTREQUEST`. -/
def nameInVer110 (name : String) : String :=
  if name = "STATE_OUREQUEST" then "STATE_OUTREQUEST" else name

/-- The name under which the current header defines a state of the 8-state header: the
same name with the `_` of the enumeration in place of the prefix `STATE_`, `_NOTUSED` for
`STATE_NOTUSED`. -/
def nameInCurrent (name : String) : String :=
  name.drop 5

/-- The state of the 8-state header for a state of the 6-state header. -/
def sixToEight (s : StateDef) : Option StateDef :=
  stateNamed Ver110.stateDefs (nameInVer110 s.name)

/-- The state of the current, 10-state header for a state of the 8-state header. -/
def eightToTen (s : StateDef) : Option StateDef :=
  stateNamed currentStateDefs (nameInCurrent s.name)

/-- The code that the map `f` between the states of two headers gives the state `s`. -/
def mappedCode (f : StateDef → Option StateDef) (s : StateDef) : Option Nat :=
  (f s).map (fun x => x.code)

/-- The states of `dst` that are not the image under `f` of a state of `src`: the states
the later header adds. -/
def addedStates (f : StateDef → Option StateDef) (src dst : List StateDef) : List StateDef :=
  dst.filter (fun y => !(src.any (fun s => f s == some y)))

/-- Both codes are defined and the first is below the second. -/
def codeBelow : Option Nat → Option Nat → Bool
  | some x, some y => decide (x < y)
  | _, _ => false

/-- The map `f` is defined on every state of `src`, injective on the codes and strictly
order-preserving on the codes. -/
def extendsInOrder (f : StateDef → Option StateDef) (src : List StateDef) : Prop :=
  (∀ s ∈ src, (f s).isSome = true)
  ∧ (∀ a ∈ src, ∀ b ∈ src, mappedCode f a = mappedCode f b → a.code = b.code)
  ∧ (∀ a ∈ src, ∀ b ∈ src, a.code < b.code →
      codeBelow (mappedCode f a) (mappedCode f b) = true)

/-! ## The vocabulary of the specification -/

/-- Modelled from the spec: the state names of section 4.1, in the order the
specification lists them. -/
def specStates : List String :=
  ["NOTUSED", "IDLE", "TRAFDIR", "IN_REQUEST", "IN_ACCEPT", "IN_TRAIN",
   "OUT_REQUEST", "OUT_ACCEPT", "OUT_TRAIN", "LOST"]

/-- A state name without its underscores, so that the header's `_INREQUEST` and the
specification's `IN_REQUEST` can be compared. -/
def stateName (s : String) : String :=
  String.mk (s.toList.filter (fun c => c != '_'))

/-- Modelled from the spec: the out-authority of a track is held in the state
`OUT_TRAIN` (the header holds no classification of the states; section 8 of the
specification names `OUT_TRAIN` and `IN_TRAIN` as the states that exclude each other). -/
def outAuthority (s : Nat) : Bool :=
  s == _OUTTRAIN

/-- Modelled from the spec: the in-authority of a track is held in the state `IN_TRAIN`. -/
def inAuthority (s : Nat) : Bool :=
  s == _INTRAIN

/-- Modelled from the spec: the states in which nobody holds the authority of the
track, listed one by one. -/
def noAuthority (s : Nat) : Bool :=
  [_NOTUSED, _IDLE, _TRAFDIR, _INREQUEST, _INACCEPT, _OUTREQUEST, _OUTACCEPT, _LOST].contains s

/-- How many of the three authority classes the state code `s` falls in. -/
def authorityClasses (s : Nat) : Nat :=
  (noAuthority s).toNat + (outAuthority s).toNat + (inAuthority s).toNat

/-- Modelled from the spec: the rule of the Liveness Supervisor (section 4.4), whose
code is not in the header. A destination last seen at `lastSeen` is LOST at `now`
when `now - lastSeen` exceeds `multiple` times the ping interval; times are in
milliseconds on a monotonic clock. -/
def isLost (multiple now lastSeen : Nat) : Bool :=
  decide (multiple * TIME_PING_INTERVAL < now - lastSeen)

/-! ## The protocol engine of the specification

The header fixes the codes of the protocol; the engine that works with them is not among
the sources. The definitions below are modelled from the specification: the data model
of section 3, the transition table of section 4.1, the pending request queue of
section 4.3, the liveness supervisor of section 4.4 and the boundary operations of
section 6. They use the codes of the header. Outbound messages are not modelled: no row
of the transition table makes the next state depend on them. -/

/-- Modelled from the spec: the TrackState of section 3, one per (destination, track):
the protocol state (a track state code), the traffic direction (`DIR_OUT`, `DIR_IN` or
`DIR_LOST`) and the identity of the train that uses the authority (`DEST_TRAIN_0` when
there is none). The last-seen time is kept per destination, as section 4.4 has it. -/
structure TrackState where
  state : Nat
  direction : Nat
  train : Nat
deriving DecidableEq, Repr

/-- Modelled from the spec: the PendingRequest of section 3, one slot per destination:
the active flag (`Q_INACTIVE` or `Q_ACTIVE`), the requested state, track and order
code, and the train identity. -/
structure PendingRequest where
  active : Nat
  state : Nat
  track : Nat
  orderCode : Nat
  train : Nat
deriving DecidableEq, Repr

/-- Modelled from the spec: a cleared slot (section 4.3, `resolve` clears the slot). -/
def PendingRequest.cleared : PendingRequest :=
  ⟨Q_INACTIVE, 0, 0, 0, DEST_TRAIN_0⟩

/-- Modelled from the spec: the tables the protocol engine owns (section 5): the
TrackState table, the PendingRequest table and the last-seen time of each destination. -/
structure Engine where
  track : Nat → Nat → TrackState
  pending : Nat → PendingRequest
  lastSeen : Nat → Nat

/-- Modelled from the spec: what an operation reports. `accepted`, `busy` and
`invalidTopology` are the results of `onLocalRequest` (section 6); `unknownDestination`
and `invalidTransition` are the errors of section 7, under which the event is dropped;
`done` is an event that was applied. -/
inductive Outcome where
  | accepted
  | busy
  | invalidTopology
  | unknownDestination
  | invalidTransition
  | done
deriving DecidableEq, Repr

/-- Modelled from the spec: the kinds of local request that create a PendingRequest
(section 3: direction or train movement). -/
inductive RequestKind where
  | direction (dir : Nat)
  | trainDeparture
deriving DecidableEq, Repr

/-- Modelled from the spec: the local actions of the transition table that answer or
close a negotiation: accept (it carries the train identity that is bound), reject and
arrival confirmation. -/
inductive LocalAction where
  | accept (train : Nat)
  | reject
  | arrival
deriving DecidableEq, Repr

/-- Modelled from the spec: the inbound events of the transition table that address one
track. An accept carries the direction it reports, which a direction negotiation
records. -/
inductive Inbound where
  | directionRequest (dir : Nat)
  | trainRequest
  | accept (dir : Nat)
  | reject
  | cancel
  | arrival
deriving DecidableEq, Repr

/-- Modelled from the spec: the multiple of the ping interval after which a silent
destination is LOST; the specification asks for at least 2 and its scenario C (25 s of
silence, 10 s interval) needs 2. -/
def LIVENESS_MULTIPLE : Nat := 2

/-- Replace the TrackState of (destination `d`, track `t`). -/
def Engine.setTrack (e : Engine) (d t : Nat) (ts : TrackState) : Engine :=
  { e with track := fun d2 t2 => if d2 = d ∧ t2 = t then ts else e.track d2 t2 }

/-- Replace the PendingRequest slot of destination `d`. -/
def Engine.setPending (e : Engine) (d : Nat) (p : PendingRequest) : Engine :=
  { e with pending := fun d2 => if d2 = d then p else e.pending d2 }

/-- Replace the last-seen time of destination `d`. -/
def Engine.setLastSeen (e : Engine) (d now : Nat) : Engine :=
  { e with lastSeen := fun d2 => if d2 = d then now else e.lastSeen d2 }

/-- The slot of destination `d` is active. -/
def Engine.slotActive (e : Engine) (d : Nat) : Bool :=
  (e.pending d).active == Q_ACTIVE

/-- The slot of destination `d` is active and it is a request on track `t`: the local
node is the requester of the negotiation on (`d`, `t`). -/
def Engine.pendingFor (e : Engine) (d t : Nat) : Bool :=
  e.slotActive d && (e.pending d).track == t

/-- Modelled from the spec: `enqueue(destination, request) -> Ok | Busy` of section 4.3;
Busy if the slot is already active, and then the slot is left as it is. -/
def enqueue (e : Engine) (d : Nat) (r : PendingRequest) : Engine × Outcome :=
  if e.slotActive d then (e, Outcome.busy)
  else (e.setPending d { r with active := Q_ACTIVE }, Outcome.done)

/-- Modelled from the spec: `resolve(destination, outcome)` of section 4.3 clears the
slot; the outcome is only reported and is left out. -/
def resolve (e : Engine) (d : Nat) : Engine :=
  e.setPending d PendingRequest.cleared

/-- Modelled from the spec: the engine at startup (section 4.1): a track is `_IDLE` if it
is configured for its destination and `_NOTUSED` otherwise; no request is pending and no
train holds an authority. The registry gives the configured tracks and their direction. -/
def Engine.init (configured : Nat → Nat → Bool) (direction : Nat → Nat → Nat) : Engine :=
  { track := fun d t => ⟨if configured d t then _IDLE else _NOTUSED, direction d t, DEST_TRAIN_0⟩
    pending := fun _ => PendingRequest.cleared
    lastSeen := fun _ => 0 }

/-- Modelled from the spec: `onLocalRequest` of section 6 with the rows of the transition
table for local requests. An unknown destination is InvalidTopology; a request for a
destination whose slot is active is Busy (sections 4.3, 7 and 8); an unknown or unused
track is InvalidTopology. A direction request takes `_IDLE` to `_TRAFDIR`, a train
departure request takes `_IDLE` with direction `DIR_OUT` to `_OUTREQUEST`; both enqueue the
PendingRequest. Any other request is an invalid transition and changes nothing. -/
def onLocalRequest (e : Engine) (d t : Nat) (kind : RequestKind) (orderCode train : Nat) :
    Engine × Outcome :=
  if ¬ d < DEST_BUTTONS then (e, Outcome.invalidTopology)
  else if e.slotActive d then (e, Outcome.busy)
  else if ¬ t < MAX_NUM_OF_TRACKS then (e, Outcome.invalidTopology)
  else if (e.track d t).state = _NOTUSED then (e, Outcome.invalidTopology)
  else
    match kind with
    | RequestKind.direction dir =>
      if (e.track d t).state = _IDLE ∧ dir < DIR_STATES then
        ((enqueue (e.setTrack d t { e.track d t with state := _TRAFDIR }) d
            ⟨Q_ACTIVE, _TRAFDIR, t, orderCode, train⟩).1, Outcome.accepted)
      else (e, Outcome.invalidTransition)
    | RequestKind.trainDeparture =>
      if (e.track d t).state = _IDLE ∧ (e.track d t).direction = DIR_OUT then
        ((enqueue (e.setTrack d t { e.track d t with state := _OUTREQUEST }) d
            ⟨Q_ACTIVE, _OUTREQUEST, t, orderCode, train⟩).1, Outcome.accepted)
      else (e, Outcome.invalidTransition)

/-- Modelled from the spec: the rows of the transition table for a local accept, reject
and arrival confirmation. A local accept takes `_INREQUEST` through `_INACCEPT` to
`_INTRAIN` and binds the train identity; a local reject takes `_INREQUEST` to `_IDLE`; a
local arrival confirmation takes `_OUTTRAIN` to `_IDLE` and clears the train identity. -/
def onLocalAction (e : Engine) (d t : Nat) (a : LocalAction) : Engine × Outcome :=
  if ¬ (d < DEST_BUTTONS ∧ t < MAX_NUM_OF_TRACKS) then (e, Outcome.invalidTopology)
  else if (e.track d t).state = _NOTUSED then (e, Outcome.invalidTopology)
  else
    match a with
    | LocalAction.accept train =>
      if (e.track d t).state = _INREQUEST then
        (e.setTrack d t { e.track d t with state := _INTRAIN, train := train }, Outcome.done)
      else (e, Outcome.invalidTransition)
    | LocalAction.reject =>
      if (e.track d t).state = _INREQUEST then
        (e.setTrack d t { e.track d t with state := _IDLE }, Outcome.done)
      else (e, Outcome.invalidTransition)
    | LocalAction.arrival =>
      if (e.track d t).state = _OUTTRAIN then
        (e.setTrack d t { e.track d t with state := _IDLE, train := DEST_TRAIN_0 }, Outcome.done)
      else (e, Outcome.invalidTransition)

/-- Modelled from the spec: the operator cancel of section 5. It clears an active slot and
drives the track that owns it to `_IDLE` (as the timeout of section 4.3 does); on a slot
that is not active it is a no-op and not an error. -/
def onLocalCancel (e : Engine) (d : Nat) : Engine × Outcome :=
  if d < DEST_BUTTONS ∧ e.slotActive d = true then
    (resolve (e.setTrack d (e.pending d).track
        { e.track d (e.pending d).track with state := _IDLE }) d, Outcome.done)
  else (e, Outcome.done)

/-- Modelled from the spec: the rows of the transition table for the inbound events of
one track. Given the TrackState, whether the local node is the requester on this track
(`mine`), whether the slot of the destination is active and the train of the slot, the
result is the next TrackState and whether the PendingRequest is cleared, or `none` when
the event is not legal in the state.

* a direction request takes `_IDLE` to `_TRAFDIR`;
* an accept takes `_TRAFDIR`, the local node being the requester, to `_IDLE` and records
  the direction; it takes `_OUTREQUEST` through `_OUTACCEPT` to `_OUTTRAIN` and binds the
  train identity of the request; the response clears the PendingRequest;
* a reject takes `_TRAFDIR` or `_OUTREQUEST` to `_IDLE`, a cancel takes `_OUTREQUEST` to
  `_IDLE`; both clear the PendingRequest of the track;
* an arrival confirmation takes `_OUTTRAIN` or `_INTRAIN` to `_IDLE` and clears the train
  identity;
* a train departure request takes `_IDLE` with direction `DIR_IN` to `_INREQUEST`, if no
  local request is pending. -/
def inboundTransition (ts : TrackState) (mine slotActive : Bool) (slotTrain : Nat) :
    Inbound → Option (TrackState × Bool)
  | Inbound.directionRequest dir =>
    if ts.state = _IDLE ∧ dir < DIR_STATES then some ({ ts with state := _TRAFDIR }, false)
    else none
  | Inbound.accept dir =>
    if ts.state = _TRAFDIR ∧ mine = true ∧ dir < DIR_STATES then
      some ({ ts with state := _IDLE, direction := dir }, true)
    else if ts.state = _OUTREQUEST ∧ mine = true then
      some ({ ts with state := _OUTTRAIN, train := slotTrain }, true)
    else none
  | Inbound.reject =>
    if ts.state = _TRAFDIR ∨ ts.state = _OUTREQUEST then some ({ ts with state := _IDLE }, mine)
    else none
  | Inbound.cancel =>
    if ts.state = _OUTREQUEST then some ({ ts with state := _IDLE }, mine) else none
  | Inbound.arrival =>
    if ts.state = _OUTTRAIN ∨ ts.state = _INTRAIN then
      some ({ ts with state := _IDLE, train := DEST_TRAIN_0 }, false)
    else none
  | Inbound.trainRequest =>
    if ts.state = _IDLE ∧ ts.direction = DIR_IN ∧ slotActive = false then
      some ({ ts with state := _INREQUEST }, false)
    else none

/-- Modelled from the spec: `onInboundMessage` of section 6 for a message that addresses
the track (`d`, `t`) and arrives at time `now`. A destination or track that is not in the
registry is an unknown destination; an event that is not legal in the state of the track
is an invalid transition; both are dropped without a change. A message that is applied
also updates the last-seen time of the destination (section 4.4). -/
def onInboundMessage (e : Engine) (now d t : Nat) (m : Inbound) : Engine × Outcome :=
  if ¬ (d < DEST_BUTTONS ∧ t < MAX_NUM_OF_TRACKS) then (e, Outcome.unknownDestination)
  else if (e.track d t).state = _NOTUSED then (e, Outcome.unknownDestination)
  else
    match inboundTransition (e.track d t) (e.pendingFor d t) (e.slotActive d)
        (e.pending d).train m with
    | none => (e, Outcome.invalidTransition)
    | some (ts, clear) =>
      (((if clear = true then resolve e d else e).setTrack d t ts).setLastSeen d now,
        Outcome.done)

/-- Modelled from the spec: an inbound "ready" of destination `d` at time `now` (last row
of the transition table and section 4.4): every track of `d` that is in `_LOST` goes to
`_IDLE` and its direction is reset to unknown, which among the direction codes is
`DIR_LOST`; the last-seen time is updated. -/
def onReady (e : Engine) (now d : Nat) : Engine × Outcome :=
  if ¬ d < DEST_BUTTONS then (e, Outcome.unknownDestination)
  else
    ({ track := fun d2 t2 =>
          if d2 = d ∧ t2 < MAX_NUM_OF_TRACKS ∧ (e.track d2 t2).state = _LOST then
            { e.track d2 t2 with state := _IDLE, direction := DIR_LOST }
          else e.track d2 t2
       pending := e.pending
       lastSeen := fun d2 => if d2 = d then now else e.lastSeen d2 }, Outcome.done)

/-- Modelled from the spec: the liveness sweep of `onTick` (sections 4.1 and 4.4). For
every destination that is LOST at `now` by `isLost`, all its tracks are forced to `_LOST`
from any state, their train identity is cleared and the PendingRequest of the
destination is cleared. The response-wait sweep of section 4.3 is left out: the
specification gives a slot no creation time and no threshold. -/
def onTick (e : Engine) (now : Nat) : Engine :=
  { track := fun d t =>
      if d < DEST_BUTTONS ∧ t < MAX_NUM_OF_TRACKS
          ∧ isLost LIVENESS_MULTIPLE now (e.lastSeen d) = true then
        { e.track d t with state := _LOST, train := DEST_TRAIN_0 }
      else e.track d t
    pending := fun d =>
      if d < DEST_BUTTONS ∧ isLost LIVENESS_MULTIPLE now (e.lastSeen d) = true then
        PendingRequest.cleared
      else e.pending d
    lastSeen := e.lastSeen }

/-- Modelled from the spec: the events the engine processes, one at a time and to
completion (section 5). -/
inductive Event where
  | localRequest (d t : Nat) (kind : RequestKind) (orderCode train : Nat)
  | localAction (d t : Nat) (a : LocalAction)
  | localCancel (d : Nat)
  | inbound (now d t : Nat) (m : Inbound)
  | ready (now d : Nat)
  | tick (now : Nat)
deriving DecidableEq, Repr

/-- Modelled from the spec: the engine processes one event. -/
def step (e : Engine) : Event → Engine × Outcome
  | Event.localRequest d t kind orderCode train => onLocalRequest e d t kind orderCode train
  | Event.localAction d t a => onLocalAction e d t a
  | Event.localCancel d => onLocalCancel e d
  | Event.inbound now d t m => onInboundMessage e now d t m
  | Event.ready now d => onReady e now d
  | Event.tick now => (onTick e now, Outcome.done)

/-- The engine after a sequence of events. -/
def run (e : Engine) : List Event → Engine
  | [] => e
  | ev :: evs => run (step e ev).1 evs

/-- The event completes a direction negotiation on (`d`, `t`) in the engine `e`: it is an
inbound accept on that track while the track is in `_TRAFDIR` and the local node is the
requester (third row of the transition table). -/
def completesDirection (e : Engine) (d t : Nat) : Event → Bool
  | Event.inbound _ d2 t2 (Inbound.accept dir) =>
    decide (d2 = d) && decide (t2 = t) && decide ((e.track d t).state = _TRAFDIR)
      && e.pendingFor d t && decide (dir < DIR_STATES)
  | _ => false

/-- Some event of the sequence, processed from `e` on, completes a direction negotiation
on (`d`, `t`). -/
def negotiated (e : Engine) (d t : Nat) : List Event → Bool
  | [] => false
  | ev :: evs => completesDirection e d t ev || negotiated (step e ev).1 d t evs

/-- The states of a train movement: request, accept and train, outgoing and incoming. -/
def trainMovement (s : Nat) : Bool :=
  [_INREQUEST, _INACCEPT, _INTRAIN, _OUTREQUEST, _OUTACCEPT, _OUTTRAIN].contains s


/-- Modelled from the spec: the moves of one track that the transition table of section
4.1 allows, as a relation between the TrackState before and after an event. -/
inductive TrackMove : TrackState → TrackState → Prop where
  | stay (ts : TrackState) : TrackMove ts ts
  | toTrafdir (ts : TrackState) (h : ts.state = _IDLE) :
      TrackMove ts { ts with state := _TRAFDIR }
  | direction (ts : TrackState) (dir : Nat) (h : ts.state = _TRAFDIR) (hd : dir < DIR_STATES) :
      TrackMove ts { ts with state := _IDLE, direction := dir }
  | toIdle (ts : TrackState) (train : Nat) :
      TrackMove ts { ts with state := _IDLE, train := train }
  | outRequest (ts : TrackState) (h : ts.state = _IDLE) (hd : ts.direction = DIR_OUT) :
      TrackMove ts { ts with state := _OUTREQUEST }
  | outTrain (ts : TrackState) (train : Nat) (h : ts.state = _OUTREQUEST) :
      TrackMove ts { ts with state := _OUTTRAIN, train := train }
  | inRequest (ts : TrackState) (h : ts.state = _IDLE) (hd : ts.direction = DIR_IN) :
      TrackMove ts { ts with state := _INREQUEST }
  | inTrain (ts : TrackState) (train : Nat) (h : ts.state = _INREQUEST) :
      TrackMove ts { ts with state := _INTRAIN, train := train }
  | lost (ts : TrackState) :
      TrackMove ts { ts with state := _LOST, train := DEST_TRAIN_0 }
  | ready (ts : TrackState) (h : ts.state = _LOST) :
      TrackMove ts { ts with state := _IDLE, direction := DIR_LOST }

/-- The recorded direction agrees with the side of a train movement state. -/
def consistent (ts : TrackState) : Prop :=
  ((ts.state = _OUTREQUEST ∨ ts.state = _OUTACCEPT ∨ ts.state = _OUTTRAIN)
      → ts.direction = DIR_OUT)
  ∧ ((ts.state = _INREQUEST ∨ ts.state = _INACCEPT ∨ ts.state = _INTRAIN)
      → ts.direction = DIR_IN)

/-- The TrackState `new` is in the state `s` and `old` was not: a transition from `old`
to `new` enters `s`. -/
def enters (old new : TrackState) (s : Nat) : Prop :=
  new.state = s ∧ old.state ≠ s

/-- An engine at startup with every track configured and the direction `DIR_OUT`. -/
def exampleEngine : Engine :=
  Engine.init (fun _ _ => true) (fun _ _ => DIR_OUT)

/-- The departure request for train 447 towards destination A on the left track. -/
def exampleRequest : Event :=
  Event.localRequest DEST_A LEFT_TRACK RequestKind.trainDeparture CODE_TRAIN_OUT 447

/-! ## Theorems -/

/-- Unfolding of the liveness rule: LOST exactly when the silence exceeds the
multiple of the ping interval. -/
theorem isLost_iff (multiple now lastSeen : Nat) :
    isLost multiple now lastSeen = true ↔ multiple * TIME_PING_INTERVAL < now - lastSeen := by
  simp [isLost]

/-- C1: the track state enumeration has exactly the ten states of the specification,
in the specification's order; the ten enumerators take the pairwise distinct codes
0..9, `NUM_OF_STATES` is 10 and equals the number of enumerators, and every state code
is below `NUM_OF_STATES`, the size of `trackStateTxt`. -/
theorem trackState_codes :
    trackStateEnum.map stateName = specStates.map stateName
    ∧ [_NOTUSED, _IDLE, _TRAFDIR, _INREQUEST, _INACCEPT, _INTRAIN,
        _OUTREQUEST, _OUTACCEPT, _OUTTRAIN, _LOST] = [0, 1, 2, 3, 4, 5, 6, 7, 8, 9]
    ∧ trackStateEnum.map (enumCode trackStateEnum) = List.range NUM_OF_STATES
    ∧ (trackStateEnum.map (enumCode trackStateEnum)).Nodup
    ∧ NUM_OF_STATES = 10
    ∧ trackStateEnum.length = NUM_OF_STATES
    ∧ (trackStateEnum.map (enumCode trackStateEnum)).all (fun s => decide (s < NUM_OF_STATES))
        = true := by
  decide

/-- C2: a cell of a track state table holds one state code, so no cell is in
`_OUTTRAIN` and in `_INTRAIN` at once, whatever the table; and every state code of the
enumeration falls in exactly one of the classes no authority, out-authority,
in-authority. -/
theorem authority_mutual_exclusion :
    (∀ (table : Nat → Nat → Nat) (dest track : Nat),
        ¬ (table dest track = _OUTTRAIN ∧ table dest track = _INTRAIN))
    ∧ (∀ s : Fin NUM_OF_STATES, ¬ (s.val = _OUTTRAIN ∧ s.val = _INTRAIN))
    ∧ (∀ s : Fin NUM_OF_STATES, authorityClasses s.val = 1)
    ∧ (∀ s : Nat, ¬ (outAuthority s = true ∧ inAuthority s = true))
    ∧ outAuthority _OUTTRAIN = true ∧ inAuthority _INTRAIN = true := by
  have hne : _OUTTRAIN ≠ _INTRAIN := by decide
  refine ⟨?_, by decide, by decide, ?_, by decide, by decide⟩
  · rintro table dest track ⟨hout, hin⟩
    exact hne (hout.symm.trans hin)
  · rintro s ⟨hout, hin⟩
    simp only [outAuthority, inAuthority, beq_iff_eq] at hout hin
    exact hne (hout.symm.trans hin)

/-- C3: the direction codes are `DIR_OUT` = 0, `DIR_IN` = 1 and `DIR_LOST` = 15, pairwise
distinct; the codes below `DIR_STATES` = 2 are exactly `DIR_OUT` and `DIR_IN`, and
`DIR_LOST` is not below `DIR_STATES`. -/
theorem direction_codes :
    DIR_OUT = 0 ∧ DIR_IN = 1 ∧ DIR_LOST = 15 ∧ DIR_STATES = 2
    ∧ [DIR_OUT, DIR_IN, DIR_LOST].Nodup
    ∧ dirEnum.length = DIR_STATES
    ∧ DIR_OUT < DIR_STATES ∧ DIR_IN < DIR_STATES
    ∧ ¬ DIR_LOST < DIR_STATES
    ∧ (∀ d : Nat, d < DIR_STATES ↔ (d = DIR_OUT ∨ d = DIR_IN)) := by
  have hout : DIR_OUT = 0 := by decide
  have hin : DIR_IN = 1 := by decide
  refine ⟨hout, hin, rfl, rfl, by decide, by decide, by decide, by decide, by decide, ?_⟩
  intro d
  rw [hout, hin]
  unfold DIR_STATES
  omega

/-- C4: the links are `DEST_BUTTONS` x `MAX_NUM_OF_TRACKS` = 4 x 2 = 8; the destination
buttons `DEST_A`..`DEST_D` are the codes below `DEST_BUTTONS`, the track indices
`LEFT_TRACK`, `RIGHT_TRACK`, `TRAFFIC_LEFT`, `TRAFFIC_RIGHT` are below `MAX_NUM_OF_TRACKS`,
the track counts `SINGLE_TRACK` = 1 and `DOUBLE_TRACK` = 2 lie between 1 and
`MAX_NUM_OF_TRACKS`, and every (destination, track) pair is inside `traffDir`. -/
theorem traffDir_in_bounds :
    DEST_BUTTONS = 4 ∧ MAX_NUM_OF_TRACKS = 2 ∧ traffDir.size = 8
    ∧ [DEST_A, DEST_B, DEST_C, DEST_D] = List.range DEST_BUTTONS
    ∧ [LEFT_TRACK, RIGHT_TRACK] = List.range MAX_NUM_OF_TRACKS
    ∧ [TRAFFIC_LEFT, TRAFFIC_RIGHT] = List.range MAX_NUM_OF_TRACKS
    ∧ SINGLE_TRACK = 1 ∧ DOUBLE_TRACK = 2
    ∧ 1 ≤ SINGLE_TRACK ∧ SINGLE_TRACK ≤ MAX_NUM_OF_TRACKS
    ∧ 1 ≤ DOUBLE_TRACK ∧ DOUBLE_TRACK ≤ MAX_NUM_OF_TRACKS
    ∧ [DEST_A, DEST_B, DEST_C, DEST_D].all (fun d =>
        [LEFT_TRACK, RIGHT_TRACK, TRAFFIC_LEFT, TRAFFIC_RIGHT].all (fun t =>
          traffDir.inBounds d t && decide (traffDir.offset d t < traffDir.size))) = true
    ∧ (∀ (d : Fin DEST_BUTTONS) (t : Fin MAX_NUM_OF_TRACKS),
        traffDir.inBounds d.val t.val = true ∧ traffDir.offset d.val t.val < traffDir.size) := by
  decide

/-- C5: the pending-request table `dtInQueue` has `DEST_BUTTONS` rows of `Q_DATA` = 4
columns; the column indices `Q_STATE`, `Q_TRACK`, `Q_ORDERCODE`, `Q_TRAIN` are the
pairwise distinct codes 0..3, each below `Q_DATA`, and the activity flag has the two
distinct values `Q_INACTIVE` = 0 and `Q_ACTIVE` = 1. -/
theorem dtInQueue_layout :
    dtInQueue.rows = DEST_BUTTONS ∧ dtInQueue.cols = Q_DATA ∧ Q_DATA = 4
    ∧ [Q_STATE, Q_TRACK, Q_ORDERCODE, Q_TRAIN] = List.range Q_DATA
    ∧ [Q_STATE, Q_TRACK, Q_ORDERCODE, Q_TRAIN].Nodup
    ∧ queueDataEnum.length = Q_DATA
    ∧ Q_STATE < Q_DATA ∧ Q_TRACK < Q_DATA ∧ Q_ORDERCODE < Q_DATA ∧ Q_TRAIN < Q_DATA
    ∧ Q_INACTIVE = 0 ∧ Q_ACTIVE = 1 ∧ Q_INACTIVE ≠ Q_ACTIVE
    ∧ queueFlagEnum.length = 2
    ∧ (∀ (d : Fin DEST_BUTTONS) (c : Fin Q_DATA), dtInQueue.inBounds d.val c.val = true) := by
  decide

/-- C6: the ping interval is 10000 ms, that is 10 seconds; under the rule "LOST when
`now - lastSeen` exceeds 2 x `TIME_PING_INTERVAL`" a destination silent for 25 s is
LOST, and a destination whose silence is at most 2 x 10000 ms is not. -/
theorem ping_interval_lost_rule :
    TIME_PING_INTERVAL = 10000
    ∧ TIME_PING_INTERVAL = 10 * 1000
    ∧ (∀ lastSeen : Nat, isLost 2 (lastSeen + 25 * 1000) lastSeen = true)
    ∧ (∀ now lastSeen : Nat, now - lastSeen ≤ 2 * 10000 → isLost 2 now lastSeen = false)
    ∧ (∀ now lastSeen : Nat, isLost 2 now lastSeen = true ↔ 2 * 10000 < now - lastSeen) := by
  refine ⟨rfl, rfl, ?_, ?_, ?_⟩
  · intro lastSeen
    rw [isLost_iff]
    unfold TIME_PING_INTERVAL
    omega
  · intro now lastSeen h
    rw [Bool.eq_false_iff, Ne, isLost_iff]
    unfold TIME_PING_INTERVAL
    omega
  · intro now lastSeen
    rw [isLost_iff]
    rfl

/-- Witness of C6: a destination last seen at 5000 ms is, at 25000 ms, silent for
20000 ms, which is not more than 2 x 10000 ms, and it is not LOST. -/
theorem ping_interval_lost_rule_witness :
    25000 - 5000 ≤ 2 * 10000 ∧ isLost 2 25000 5000 = false :=
  ⟨by decide, ping_interval_lost_rule.2.2.2.1 25000 5000 (by decide)⟩

/-- C7: a topic has `NUM_OF_TOPICS` = 6 segments; the enumerators `TOPIC_MSGTYPE`,
`TOPIC_SCALE`, `TOPIC_TYPE`, `TOPIC_NODE_ID`, `TOPIC_PORT_ID`, `TOPIC_ORDER` take the
codes 0..5 in that order, each below `NUM_OF_TOPICS`; in the header's example topic
`cmd/h0/tam/tambox-1/a/req` they select the message class, the scale, the body type,
the node id, the port id and the order. -/
theorem topic_segments :
    NUM_OF_TOPICS = 6
    ∧ topicEnum.length = NUM_OF_TOPICS
    ∧ [TOPIC_MSGTYPE, TOPIC_SCALE, TOPIC_TYPE, TOPIC_NODE_ID, TOPIC_PORT_ID, TOPIC_ORDER]
        = [0, 1, 2, 3, 4, 5]
    ∧ topicEnum.map (enumCode topicEnum) = List.range NUM_OF_TOPICS
    ∧ (topicEnum.map (enumCode topicEnum)).all (fun i => decide (i < NUM_OF_TOPICS)) = true
    ∧ (splitTopic "cmd/h0/tam/tambox-1/a/req").length = NUM_OF_TOPICS
    ∧ [TOPIC_MSGTYPE, TOPIC_SCALE, TOPIC_TYPE, TOPIC_NODE_ID, TOPIC_PORT_ID, TOPIC_ORDER].map
          (fun i => (splitTopic "cmd/h0/tam/tambox-1/a/req").get? i)
        = [some COMMAND, some "h0", some TAM, some "tambox-1", some "a", some REQUEST]
    ∧ exampleTopics.map (fun t => (splitTopic t).length) = [6, 6, 6, 4] := by
  decide

/-- C8: the message class strings are "cmd" and "dt", the body type strings "tam",
"node", "tower" and "ping", the order strings "req" and "res"; the strings of each set
are pairwise distinct, and the segments of the header's example topics belong to them. -/
theorem topic_vocabulary :
    messageTypes = ["cmd", "dt"]
    ∧ bodyTypes = ["tam", "node", "tower", "ping"]
    ∧ messageSubtypes = ["req", "res"]
    ∧ messageTypes.Nodup ∧ bodyTypes.Nodup ∧ messageSubtypes.Nodup
    ∧ COMMAND = "cmd" ∧ DATA = "dt"
    ∧ TAM = "tam" ∧ NODE = "node" ∧ TOWER = "tower" ∧ PING = "ping"
    ∧ REQUEST = "req" ∧ RESPONSE = "res"
    ∧ exampleTopics.all (fun t =>
        ((splitTopic t).get? TOPIC_MSGTYPE).any (fun s => messageTypes.contains s)
        && ((splitTopic t).get? TOPIC_TYPE).any (fun s => bodyTypes.contains s)
        && ((splitTopic t).get? TOPIC_ORDER).all (fun s => messageSubtypes.contains s)) = true := by
  decide

/-- C9, as the specification states it, fails: the metadata keys the header defines for
the version and the signature are "ver" and "sign"; neither "version" nor "signature"
is a metadata key. -/
theorem metadata_keys_not_spelled_out :
    M_VER ≠ "version" ∧ M_SIGN ≠ "signature"
    ∧ "version" ∉ metadataKeys ∧ "signature" ∉ metadataKeys
    ∧ metadataKeys ≠ ["id", "type", "version", "name", "signature", "rssi"] := by
  decide

/-- C9, amended: the reported states are the nine pairwise distinct strings accepted,
canceled, rejected, lost, ready, in, out, left, right, none of which is a desired
state (accept, cancel, reject); the metadata keys are the six pairwise distinct keys
id, type, ver, name, sign, rssi. -/
theorem body_vocabulary :
    reportedStates
      = ["accepted", "canceled", "rejected", "lost", "ready", "in", "out", "left", "right"]
    ∧ reportedStates.length = 9
    ∧ reportedStates.Nodup
    ∧ desiredStates = ["accept", "cancel", "reject"]
    ∧ (reportedStates ++ desiredStates).Nodup
    ∧ reportedStates.all (fun s => !desiredStates.contains s) = true
    ∧ metadataKeys = ["id", "type", "ver", "name", "sign", "rssi"]
    ∧ metadataKeys.length = 6
    ∧ metadataKeys.Nodup := by
  decide

/-- C10: the configuration parameter indices `ID`, `SIGN`, `NAME`, `NUMOFDEST`, `TRACKS`,
`EXIT`, `TOTTRACKS`, `TYPE` are the pairwise distinct codes 0..7; they number
`CONFIG_PARAM` = 8, each is below `CONFIG_PARAM`, and `tamBoxConfig[d][p]` is in bounds
for every destination row `d` below `CONFIG_DEST` and every such parameter `p`. -/
theorem config_param_in_bounds :
    CONFIG_PARAM = 8
    ∧ configParamEnum.length = CONFIG_PARAM
    ∧ [ID, SIGN, NAME, NUMOFDEST, TRACKS, EXIT, TOTTRACKS, TYPE] = List.range CONFIG_PARAM
    ∧ [ID, SIGN, NAME, NUMOFDEST, TRACKS, EXIT, TOTTRACKS, TYPE].Nodup
    ∧ [ID, SIGN, NAME, NUMOFDEST, TRACKS, EXIT, TOTTRACKS, TYPE].all
        (fun p => decide (p < CONFIG_PARAM)) = true
    ∧ tamBoxConfig.rows = CONFIG_DEST ∧ tamBoxConfig.cols = CONFIG_PARAM
    ∧ (∀ d : Fin CONFIG_DEST,
        [ID, SIGN, NAME, NUMOFDEST, TRACKS, EXIT, TOTTRACKS, TYPE].all (fun p =>
          tamBoxConfig.inBounds d.val p
          && decide (tamBoxConfig.offset d.val p < tamBoxConfig.size)) = true) := by
  decide

/-- C11: the station types are the six strings none, single, split, left, right,
double, pairwise distinct, and each at most 6 characters long, the size the header
documents for the `TYPE` parameter. -/
theorem station_type_vocabulary :
    stationTypes = ["none", "single", "split", "left", "right", "double"]
    ∧ TYPE_NONE_T = "none" ∧ TYPE_SINGLE_T = "single" ∧ TYPE_SPLIT_T = "split"
    ∧ TYPE_LEFT_T = "left" ∧ TYPE_RIGHT_T = "right" ∧ TYPE_DOUBLE_T = "double"
    ∧ stationTypes.length = 6
    ∧ stationTypes.Nodup
    ∧ stationTypes.map String.length = [4, 6, 5, 4, 5, 6]
    ∧ stationTypes.all (fun s => decide (s.length ≤ TYPE_MAX_SIZE)) = true := by
  decide

/-- C12: the oldest header has 6 track states and topic indices 0..6 (7 segments), the
current header 10 track states, among them `_INACCEPT` and `_OUTACCEPT`, and 6 topic
segments; the incoming request, incoming train, outgoing request and outgoing train
states have different codes in the two headers, while not-used is 0 and idle is 1 in
both. -/
theorem state_numbering_generations :
    SixState.NUM_OF_STATES = 6 ∧ SixState.states = List.range SixState.NUM_OF_STATES
    ∧ SixState.topicIndices = List.range 7
    ∧ NUM_OF_STATES = 10 ∧ trackStateEnum.length = 10
    ∧ trackStateEnum.contains "_INACCEPT" = true ∧ trackStateEnum.contains "_OUTACCEPT" = true
    ∧ _INACCEPT ≠ _OUTACCEPT
    ∧ NUM_OF_TOPICS = 6 ∧ topicEnum.length = 6
    ∧ SixState.topicIndices.length ≠ NUM_OF_TOPICS
    ∧ SixState.NUM_OF_STATES ≠ NUM_OF_STATES
    ∧ SixState.STATE_INREQUEST = 2 ∧ _INREQUEST = 3
    ∧ SixState.STATE_INTRAIN = 3 ∧ _INTRAIN = 5
    ∧ SixState.STATE_OUREQUEST = 4 ∧ _OUTREQUEST = 6
    ∧ SixState.STATE_OUTTRAIN = 5 ∧ _OUTTRAIN = 8
    ∧ SixState.STATE_INREQUEST ≠ _INREQUEST ∧ SixState.STATE_INTRAIN ≠ _INTRAIN
    ∧ SixState.STATE_OUREQUEST ≠ _OUTREQUEST ∧ SixState.STATE_OUTTRAIN ≠ _OUTTRAIN
    ∧ SixState.STATE_NOTUSED = 0 ∧ _NOTUSED = 0
    ∧ SixState.STATE_IDLE = 1 ∧ _IDLE = 1 := by
  decide

/-- C17: the 11 English, the 11 Swedish and the 15 start phase strings are each at most
16 characters long, and `LCD_TRAIN_TE` is at most 11 characters long. The lengths count
characters; a Swedish string with the letters å, ä, ö takes more bytes in the UTF-8
encoding of the header, `LCD_TRAINDIR_NOK_T` 17 of them. -/
theorem lcd_strings_fit :
    lcdEnglish.length = 11 ∧ lcdSwedish.length = 11 ∧ lcdStartPhase.length = 15
    ∧ lcdEnglish.all (fun s => decide (s.length ≤ LCD_MAX_LENGTH)) = true
    ∧ lcdSwedish.all (fun s => decide (s.length ≤ LCD_MAX_LENGTH)) = true
    ∧ lcdStartPhase.all (fun s => decide (s.length ≤ LCD_MAX_LENGTH)) = true
    ∧ LCD_TRAIN_TE.length ≤ LCD_TRAIN_MAX_LENGTH
    ∧ lcdEnglish.map String.length = [11, 16, 10, 9, 11, 8, 11, 11, 13, 9, 10]
    ∧ lcdSwedish.map String.length = [11, 16, 7, 10, 14, 8, 10, 11, 15, 7, 7]
    ∧ lcdStartPhase.map String.length
        = [7, 14, 5, 12, 13, 15, 14, 7, 15, 13, 16, 16, 16, 14, 16]
    ∧ lcdSwedish.map String.utf8ByteSize = [13, 17, 8, 11, 14, 8, 10, 12, 15, 8, 8] := by
  decide

/-- C18: `DB_CONFIGPATH_LEN` = `DB_HOST_LEN` + `DB_CONFIGFILE_LEN` (40 = 30 + 10); the
default host fits in `DB_HOST_LEN` characters and the query string in
`DB_CONFIGFILE_LEN`, so the host followed by the query string fits in
`DB_CONFIGPATH_LEN`. -/
theorem config_path_fits :
    DB_CONFIGPATH_LEN = DB_HOST_LEN + DB_CONFIGFILE_LEN
    ∧ DB_CONFIGPATH_LEN = 40 ∧ DB_HOST_LEN = 30 ∧ DB_CONFIGFILE_LEN = 10
    ∧ DB_CONFIG_HOST.length = 24 ∧ DB_CONFIG_FILE.length = 5
    ∧ DB_CONFIG_HOST.length ≤ DB_HOST_LEN
    ∧ DB_CONFIG_FILE.length ≤ DB_CONFIGFILE_LEN
    ∧ (DB_CONFIG_HOST ++ DB_CONFIG_FILE).length ≤ DB_CONFIGPATH_LEN
    ∧ (DB_CONFIG_HOST ++ DB_CONFIG_FILE).utf8ByteSize + 1 ≤ DB_CONFIGPATH_LEN := by
  decide

/-- C19: in the current header and in the header of ver 1.1.0, each right-hand entry is
its button plus 5; the nine indices `DEST_A`..`DEST_D`, `OWN`, `DEST_A_RIGHT`..`DEST_D_RIGHT`
are exactly 0..8, pairwise distinct and each below `CONFIG_DEST` = 9. -/
theorem dest_right_offsets :
    DEST_A_RIGHT = DEST_A + 5 ∧ DEST_B_RIGHT = DEST_B + 5
    ∧ DEST_C_RIGHT = DEST_C + 5 ∧ DEST_D_RIGHT = DEST_D + 5
    ∧ [DEST_A, DEST_B, DEST_C, DEST_D, OWN,
        DEST_A_RIGHT, DEST_B_RIGHT, DEST_C_RIGHT, DEST_D_RIGHT] = List.range CONFIG_DEST
    ∧ [DEST_A, DEST_B, DEST_C, DEST_D, OWN,
        DEST_A_RIGHT, DEST_B_RIGHT, DEST_C_RIGHT, DEST_D_RIGHT].Nodup
    ∧ CONFIG_DEST = 9
    ∧ [DEST_A, DEST_B, DEST_C, DEST_D, OWN,
        DEST_A_RIGHT, DEST_B_RIGHT, DEST_C_RIGHT, DEST_D_RIGHT].all
          (fun d => decide (d < tamBoxConfig.rows)) = true
    ∧ Ver110.DEST_A_RIGHT = Ver110.DEST_A + 5 ∧ Ver110.DEST_B_RIGHT = Ver110.DEST_B + 5
    ∧ Ver110.DEST_C_RIGHT = Ver110.DEST_C + 5 ∧ Ver110.DEST_D_RIGHT = Ver110.DEST_D + 5
    ∧ [Ver110.DEST_A, Ver110.DEST_B, Ver110.DEST_C, Ver110.DEST_D, Ver110.OWN,
        Ver110.DEST_A_RIGHT, Ver110.DEST_B_RIGHT, Ver110.DEST_C_RIGHT, Ver110.DEST_D_RIGHT]
        = List.range Ver110.CONFIG_DEST
    ∧ Ver110.CONFIG_DEST = 9 := by
  decide

/-- C20, as stated, fails: the string position enumeration has 12 enumerators, one more
than `LCD_STRINGS`, and its last enumerator `LCD_TRAIN_ID` is 11, which is not below
`LCD_STRINGS`. -/
theorem lcd_train_id_not_a_string_position :
    LCD_TRAIN_ID = 11 ∧ LCD_STRINGS = 11
    ∧ ¬ LCD_TRAIN_ID < LCD_STRINGS
    ∧ lcdEnum.length = 12
    ∧ lcdEnum.length ≠ LCD_STRINGS
    ∧ ¬ (lcdEnum.map (enumCode lcdEnum)).all (fun e => decide (e < LCD_STRINGS)) = true := by
  decide

/-- C20, amended: every enumerator of the string position enumeration other than the
last one, `LCD_TRAIN_ID`, is below `LCD_STRINGS` = 11; these enumerators are the codes
0..10, as many as `LCD_STRINGS` and as the strings defined per language, and
`LCD_TRAIN_ID` is `LCD_STRINGS` itself. -/
theorem lcd_string_positions :
    LCD_STRINGS = 11
    ∧ [LCD_TRAIN, LCD_TRAINDIR_NOK, LCD_DEPATURE, LCD_TAM_CANCEL, LCD_TAM_ACCEPT, LCD_ARRIVAL,
        LCD_TAM_NOK, LCD_TAM_CANCELED, LCD_TAM_OK, LCD_ARRIVAL_OK, LCD_DEPATURE_OK]
        = List.range LCD_STRINGS
    ∧ lcdEnum.dropLast.map (enumCode lcdEnum) = List.range LCD_STRINGS
    ∧ (lcdEnum.dropLast.map (enumCode lcdEnum)).all (fun e => decide (e < LCD_STRINGS)) = true
    ∧ lcdEnum.dropLast.length = LCD_STRINGS
    ∧ lcdEnglish.length = LCD_STRINGS ∧ lcdSwedish.length = LCD_STRINGS
    ∧ lcdEnum.getLast? = some "LCD_TRAIN_ID"
    ∧ LCD_TRAIN_ID = LCD_STRINGS := by
  decide

/-! ### The protocol engine -/

/-- Replacing one TrackState by a move of it is a move, or no change, of every track. -/
theorem setTrack_move (e : Engine) (d2 t2 : Nat) (ts : TrackState) (d t : Nat)
    (h : TrackMove (e.track d2 t2) ts) :
    TrackMove (e.track d t) ((e.setTrack d2 t2 ts).track d t) := by
  unfold Engine.setTrack
  by_cases hdt : d = d2 ∧ t = t2
  · obtain ⟨rfl, rfl⟩ := hdt
    simpa using h
  · simp only [hdt, if_false]
    exact TrackMove.stay _

/-- An inbound event that is legal in the state of a track moves the track as the
transition table allows. -/
theorem inboundTransition_move (ts ts2 : TrackState) (mine act clear : Bool) (tr : Nat)
    (m : Inbound) (h : inboundTransition ts mine act tr m = some (ts2, clear)) :
    TrackMove ts ts2 := by
  cases m with
  | accept dir =>
    simp only [inboundTransition] at h
    split_ifs at h with h1 h2 <;>
      simp only [Option.some.injEq, Prod.mk.injEq] at h <;> obtain ⟨rfl, _⟩ := h
    · exact TrackMove.direction ts _ h1.1 h1.2.2
    · exact TrackMove.outTrain ts tr h2.1
  | directionRequest dir =>
    simp only [inboundTransition] at h
    split_ifs at h with h1
    simp only [Option.some.injEq, Prod.mk.injEq] at h
    obtain ⟨rfl, _⟩ := h
    exact TrackMove.toTrafdir ts h1.1
  | trainRequest =>
    simp only [inboundTransition] at h
    split_ifs at h with h1
    simp only [Option.some.injEq, Prod.mk.injEq] at h
    obtain ⟨rfl, _⟩ := h
    exact TrackMove.inRequest ts h1.1 h1.2.1
  | reject =>
    simp only [inboundTransition] at h
    split_ifs at h
    simp only [Option.some.injEq, Prod.mk.injEq] at h
    obtain ⟨rfl, _⟩ := h
    exact TrackMove.toIdle ts ts.train
  | cancel =>
    simp only [inboundTransition] at h
    split_ifs at h
    simp only [Option.some.injEq, Prod.mk.injEq] at h
    obtain ⟨rfl, _⟩ := h
    exact TrackMove.toIdle ts ts.train
  | arrival =>
    simp only [inboundTransition] at h
    split_ifs at h
    simp only [Option.some.injEq, Prod.mk.injEq] at h
    obtain ⟨rfl, _⟩ := h
    exact TrackMove.toIdle ts DEST_TRAIN_0

/-- Every event moves every track as the transition table allows. -/
theorem step_move (e : Engine) (ev : Event) (d t : Nat) :
    TrackMove (e.track d t) ((step e ev).1.track d t) := by
  cases ev with
  | localRequest d2 t2 kind oc tr =>
    cases kind <;> simp only [step, onLocalRequest, enqueue] <;> split_ifs with h1 h2 h3 h4 h5 h6
    all_goals first
      | exact TrackMove.stay _
      | exact setTrack_move e d2 t2 _ d t (TrackMove.toTrafdir _ h5.1)
      | exact setTrack_move e d2 t2 _ d t (TrackMove.outRequest _ h5.1 h5.2)
  | localAction d2 t2 a =>
    cases a <;> simp only [step, onLocalAction] <;> split_ifs with h1 h2 h3
    all_goals first
      | exact TrackMove.stay _
      | exact setTrack_move e d2 t2 _ d t (TrackMove.inTrain _ _ h3)
      | exact setTrack_move e d2 t2 _ d t (TrackMove.toIdle _ _)
  | localCancel d2 =>
    simp only [step, onLocalCancel]
    split_ifs with h1
    · exact setTrack_move e d2 _ _ d t (TrackMove.toIdle _ _)
    · exact TrackMove.stay _
  | inbound now d2 t2 m =>
    simp only [step, onInboundMessage]
    split_ifs
    all_goals first
      | exact TrackMove.stay _
      | (cases hm : inboundTransition (e.track d2 t2) (e.pendingFor d2 t2) (e.slotActive d2)
            (e.pending d2).train m with
          | none => exact TrackMove.stay _
          | some r =>
            obtain ⟨ts, clear⟩ := r
            have hmove := inboundTransition_move _ _ _ _ _ _ _ hm
            cases clear
            · exact setTrack_move e d2 t2 ts d t hmove
            · exact setTrack_move (resolve e d2) d2 t2 ts d t hmove)
  | ready now d2 =>
    simp only [step, onReady]
    split_ifs
    all_goals first
      | exact TrackMove.stay _
      | (show TrackMove (e.track d t)
            (if d = d2 ∧ t < MAX_NUM_OF_TRACKS ∧ (e.track d t).state = _LOST
              then { e.track d t with state := _IDLE, direction := DIR_LOST } else e.track d t)
         split_ifs with h2
         · exact TrackMove.ready _ h2.2.2
         · exact TrackMove.stay _)
  | tick now =>
    show TrackMove (e.track d t) (if d < DEST_BUTTONS ∧ t < MAX_NUM_OF_TRACKS
        ∧ isLost LIVENESS_MULTIPLE now (e.lastSeen d) = true
      then { e.track d t with state := _LOST, train := DEST_TRAIN_0 } else e.track d t)
    split_ifs with h2
    · exact TrackMove.lost _
    · exact TrackMove.stay _

/-- The numeric values of the track state codes and of the two negotiable directions. -/
theorem state_code_values :
    _NOTUSED = 0 ∧ _IDLE = 1 ∧ _TRAFDIR = 2 ∧ _INREQUEST = 3 ∧ _INACCEPT = 4 ∧ _INTRAIN = 5
    ∧ _OUTREQUEST = 6 ∧ _OUTACCEPT = 7 ∧ _OUTTRAIN = 8 ∧ _LOST = 9
    ∧ DIR_OUT = 0 ∧ DIR_IN = 1 := by
  decide

/-- A move of the transition table keeps the direction consistent with the state. -/
theorem move_consistent (old new : TrackState) (hm : TrackMove old new) (h : consistent old) :
    consistent new := by
  obtain ⟨c0, c1, c2, c3, c4, c5, c6, c7, c8, c9, hout, hin⟩ := state_code_values
  unfold consistent at h ⊢
  cases hm <;> simp_all

/-- A move from a consistent track into `_OUTREQUEST` or `_OUTTRAIN` has direction `DIR_OUT`
before and after. -/
theorem move_enter_out (old new : TrackState) (hm : TrackMove old new) (h : consistent old)
    (hnew : new.state = _OUTREQUEST ∨ new.state = _OUTTRAIN) (hne : old.state ≠ new.state) :
    old.direction = DIR_OUT ∧ new.direction = DIR_OUT := by
  obtain ⟨c0, c1, c2, c3, c4, c5, c6, c7, c8, c9, hout, hin⟩ := state_code_values
  unfold consistent at h
  cases hm <;> simp_all

/-- A move from a consistent track into `_INREQUEST` or `_INTRAIN` has direction `DIR_IN`
before and after. -/
theorem move_enter_in (old new : TrackState) (hm : TrackMove old new) (h : consistent old)
    (hnew : new.state = _INREQUEST ∨ new.state = _INTRAIN) (hne : old.state ≠ new.state) :
    old.direction = DIR_IN ∧ new.direction = DIR_IN := by
  obtain ⟨c0, c1, c2, c3, c4, c5, c6, c7, c8, c9, hout, hin⟩ := state_code_values
  unfold consistent at h
  cases hm <;> simp_all

/-- At startup every track is consistent: no track is in a train movement state. -/
theorem init_consistent (configured : Nat → Nat → Bool) (direction : Nat → Nat → Nat)
    (d t : Nat) : consistent ((Engine.init configured direction).track d t) := by
  obtain ⟨c0, c1, c2, c3, c4, c5, c6, c7, c8, c9, hout, hin⟩ := state_code_values
  simp only [consistent, Engine.init, c0, c1, c3, c4, c5, c6, c7, c8]
  split_ifs <;> simp

/-- Consistency of every track is kept along a run of the engine. -/
theorem run_consistent (evs : List Event) (e : Engine)
    (h : ∀ d t, consistent (e.track d t)) : ∀ d t, consistent ((run e evs).track d t) := by
  induction evs generalizing e with
  | nil => exact h
  | cons ev evs ih =>
    exact ih (step e ev).1 (fun d t => move_consistent _ _ (step_move e ev d t) (h d t))


/-- Replacing one TrackState by one of the same direction changes no direction. -/
theorem setTrack_direction (e : Engine) (d2 t2 : Nat) (ts : TrackState) (d t : Nat)
    (h : ts.direction = (e.track d2 t2).direction) :
    ((e.setTrack d2 t2 ts).track d t).direction = (e.track d t).direction := by
  unfold Engine.setTrack
  by_cases hdt : d = d2 ∧ t = t2
  · obtain ⟨rfl, rfl⟩ := hdt
    simpa using h
  · simp only [hdt, if_false]

/-- The only inbound event that changes the direction of a track is an accept in
`_TRAFDIR` for a request of the local node. -/
theorem inboundTransition_direction (ts ts2 : TrackState) (mine act clear : Bool) (tr : Nat)
    (m : Inbound) (h : inboundTransition ts mine act tr m = some (ts2, clear)) :
    ts2.direction = ts.direction
    ∨ ∃ dir, m = Inbound.accept dir ∧ ts.state = _TRAFDIR ∧ mine = true ∧ dir < DIR_STATES := by
  cases m <;> simp only [inboundTransition] at h <;> split_ifs at h with h1 <;>
    simp only [Option.some.injEq, Prod.mk.injEq] at h <;> obtain ⟨rfl, _⟩ := h
  all_goals first
    | exact Or.inl rfl
    | exact Or.inr ⟨_, rfl, h1.1, h1.2.1, h1.2.2⟩

/-- An event that completes no direction negotiation on a track leaves the direction of
the track as it is or resets it to `DIR_LOST`. -/
theorem step_direction (e : Engine) (ev : Event) (d t : Nat)
    (h : completesDirection e d t ev = false) :
    ((step e ev).1.track d t).direction = (e.track d t).direction
    ∨ ((step e ev).1.track d t).direction = DIR_LOST := by
  cases ev with
  | localRequest d2 t2 kind oc tr =>
    cases kind <;> simp only [step, onLocalRequest, enqueue] <;> split_ifs
    all_goals first
      | exact Or.inl rfl
      | exact Or.inl (setTrack_direction e d2 t2 _ d t rfl)
  | localAction d2 t2 a =>
    cases a <;> simp only [step, onLocalAction] <;> split_ifs
    all_goals first
      | exact Or.inl rfl
      | exact Or.inl (setTrack_direction e d2 t2 _ d t rfl)
  | localCancel d2 =>
    simp only [step, onLocalCancel]
    split_ifs
    all_goals first
      | exact Or.inl rfl
      | exact Or.inl (setTrack_direction e d2 _ _ d t rfl)
  | inbound now d2 t2 m =>
    simp only [step, onInboundMessage]
    split_ifs
    all_goals first
      | exact Or.inl rfl
      | (cases hm : inboundTransition (e.track d2 t2) (e.pendingFor d2 t2) (e.slotActive d2)
            (e.pending d2).train m with
          | none => exact Or.inl rfl
          | some r =>
            obtain ⟨ts, clear⟩ := r
            rcases inboundTransition_direction _ _ _ _ _ _ _ hm with hdir | ⟨dir, rfl, hs, hmine, hlt⟩
            · cases clear
              · exact Or.inl (setTrack_direction e d2 t2 ts d t hdir)
              · exact Or.inl (setTrack_direction (resolve e d2) d2 t2 ts d t hdir)
            · by_cases hdt : d = d2 ∧ t = t2
              · obtain ⟨rfl, rfl⟩ := hdt
                simp [completesDirection, hs, hmine, hlt] at h
              · left
                cases clear <;>
                  simp [Engine.setTrack, Engine.setLastSeen, resolve, Engine.setPending, hdt])
  | ready now d2 =>
    simp only [step, onReady]
    split_ifs
    all_goals first
      | exact Or.inl rfl
      | (show (if d = d2 ∧ t < MAX_NUM_OF_TRACKS ∧ (e.track d t).state = _LOST
              then { e.track d t with state := _IDLE, direction := DIR_LOST }
              else e.track d t).direction = (e.track d t).direction
            ∨ (if d = d2 ∧ t < MAX_NUM_OF_TRACKS ∧ (e.track d t).state = _LOST
              then { e.track d t with state := _IDLE, direction := DIR_LOST }
              else e.track d t).direction = DIR_LOST
         split_ifs
         · exact Or.inr rfl
         · exact Or.inl rfl)
  | tick now =>
    show (if d < DEST_BUTTONS ∧ t < MAX_NUM_OF_TRACKS
          ∧ isLost LIVENESS_MULTIPLE now (e.lastSeen d) = true
        then { e.track d t with state := _LOST, train := DEST_TRAIN_0 }
        else e.track d t).direction = (e.track d t).direction ∨ _
    split_ifs
    · exact Or.inl rfl
    · exact Or.inl rfl

/-- A track with direction `DIR_LOST` outside a train movement stays so under a move that
does not set a negotiated direction. -/
theorem move_keeps_lost (old new : TrackState) (hm : TrackMove old new)
    (hdir : old.direction = DIR_LOST) (hst : trainMovement old.state = false)
    (hnew : new.direction = old.direction ∨ new.direction = DIR_LOST) :
    new.direction = DIR_LOST ∧ trainMovement new.state = false := by
  obtain ⟨c0, c1, c2, c3, c4, c5, c6, c7, c8, c9, hout, hin⟩ := state_code_values
  have hl : DIR_LOST = 15 := rfl
  refine ⟨by rcases hnew with h | h <;> simp [h, hdir], ?_⟩
  simp only [trainMovement, c3, c4, c5, c6, c7, c8] at hst ⊢
  cases hm <;> simp_all

/-- Along a run without a completed direction negotiation on a track, the track keeps the
direction `DIR_LOST` and enters no train movement state. -/
theorem run_keeps_lost (d t : Nat) (evs : List Event) (e : Engine)
    (hdir : (e.track d t).direction = DIR_LOST)
    (hst : trainMovement (e.track d t).state = false)
    (hneg : negotiated e d t evs = false) :
    ((run e evs).track d t).direction = DIR_LOST
    ∧ trainMovement ((run e evs).track d t).state = false := by
  induction evs generalizing e with
  | nil => exact ⟨hdir, hst⟩
  | cons ev evs ih =>
    simp only [negotiated, Bool.or_eq_false_iff] at hneg
    have hk := move_keeps_lost _ _ (step_move e ev d t) hdir hst
      (step_direction e ev d t hneg.1)
    exact ih (step e ev).1 hk.1 hk.2 hneg.2


/-- C13: in every run of the engine from startup, whenever an event makes a track enter
`_OUTREQUEST` or `_OUTTRAIN` the recorded direction of the track is `DIR_OUT`, before and
after the event, and whenever it makes a track enter `_INREQUEST` or `_INTRAIN` the
recorded direction is `DIR_IN`. -/
theorem direction_authority_consistency (configured : Nat → Nat → Bool)
    (direction : Nat → Nat → Nat) (evs : List Event) (ev : Event) (d t : Nat) :
    ((enters ((run (Engine.init configured direction) evs).track d t)
          ((step (run (Engine.init configured direction) evs) ev).1.track d t) _OUTREQUEST
        ∨ enters ((run (Engine.init configured direction) evs).track d t)
          ((step (run (Engine.init configured direction) evs) ev).1.track d t) _OUTTRAIN)
      → ((run (Engine.init configured direction) evs).track d t).direction = DIR_OUT
        ∧ ((step (run (Engine.init configured direction) evs) ev).1.track d t).direction
            = DIR_OUT)
    ∧ ((enters ((run (Engine.init configured direction) evs).track d t)
          ((step (run (Engine.init configured direction) evs) ev).1.track d t) _INREQUEST
        ∨ enters ((run (Engine.init configured direction) evs).track d t)
          ((step (run (Engine.init configured direction) evs) ev).1.track d t) _INTRAIN)
      → ((run (Engine.init configured direction) evs).track d t).direction = DIR_IN
        ∧ ((step (run (Engine.init configured direction) evs) ev).1.track d t).direction
            = DIR_IN) := by
  have hc := run_consistent evs (Engine.init configured direction)
    (init_consistent configured direction) d t
  have hm := step_move (run (Engine.init configured direction) evs) ev d t
  constructor
  · intro h
    apply move_enter_out _ _ hm hc
    · rcases h with h | h
      · exact Or.inl h.1
      · exact Or.inr h.1
    · rcases h with h | h <;> exact fun heq => h.2 (heq.trans h.1)
  · intro h
    apply move_enter_in _ _ hm hc
    · rcases h with h | h
      · exact Or.inl h.1
      · exact Or.inr h.1
    · rcases h with h | h <;> exact fun heq => h.2 (heq.trans h.1)

/-- Witness of C13: at startup with direction `DIR_OUT`, the departure request for train
447 makes the left track of destination A enter `_OUTREQUEST`, and its recorded direction
is `DIR_OUT`. -/
theorem direction_authority_consistency_witness :
    enters ((run exampleEngine []).track DEST_A LEFT_TRACK)
        ((step (run exampleEngine []) exampleRequest).1.track DEST_A LEFT_TRACK) _OUTREQUEST
    ∧ ((run exampleEngine []).track DEST_A LEFT_TRACK).direction = DIR_OUT
    ∧ ((step (run exampleEngine []) exampleRequest).1.track DEST_A LEFT_TRACK).direction
        = DIR_OUT :=
  ⟨⟨by decide, by decide⟩,
    (direction_authority_consistency (fun _ _ => true) (fun _ _ => DIR_OUT) [] exampleRequest
      DEST_A LEFT_TRACK).1 (Or.inl ⟨by decide, by decide⟩)⟩

/-- C14: for a destination whose PendingRequest slot is active, a local request returns
Busy and leaves the engine, and with it every field of the slot, unchanged; a local
request is accepted only for a destination whose slot is not active. -/
theorem queue_exclusivity (e : Engine) (d t : Nat) (kind : RequestKind)
    (orderCode train : Nat) (hd : d < DEST_BUTTONS) (ha : (e.pending d).active = Q_ACTIVE) :
    onLocalRequest e d t kind orderCode train = (e, Outcome.busy)
    ∧ step e (Event.localRequest d t kind orderCode train) = (e, Outcome.busy)
    ∧ (onLocalRequest e d t kind orderCode train).1.pending d = e.pending d
    ∧ (∀ (e2 : Engine) (d2 t2 : Nat) (kind2 : RequestKind) (orderCode2 train2 : Nat),
        (onLocalRequest e2 d2 t2 kind2 orderCode2 train2).2 = Outcome.accepted
          → (e2.pending d2).active ≠ Q_ACTIVE) := by
  have hbusy : onLocalRequest e d t kind orderCode train = (e, Outcome.busy) := by
    simp [onLocalRequest, Engine.slotActive, hd, ha]
  refine ⟨hbusy, hbusy, by rw [hbusy], ?_⟩
  intro e2 d2 t2 kind2 orderCode2 train2 hacc hact
  by_cases hd2 : d2 < DEST_BUTTONS
  · simp [onLocalRequest, Engine.slotActive, hd2, hact] at hacc
  · simp [onLocalRequest, hd2] at hacc

/-- Witness of C14: after the departure request for train 447 the slot of destination A is
active, and a direction request for destination A on the right track is Busy. -/
theorem queue_exclusivity_witness :
    DEST_A < DEST_BUTTONS
    ∧ ((step exampleEngine exampleRequest).1.pending DEST_A).active = Q_ACTIVE
    ∧ (onLocalRequest (step exampleEngine exampleRequest).1 DEST_A RIGHT_TRACK
        (RequestKind.direction DIR_IN) CODE_TRAFDIR_REQ_IN DEST_TRAIN_0).2 = Outcome.busy :=
  ⟨by decide, by decide,
    congrArg Prod.snd (queue_exclusivity (step exampleEngine exampleRequest).1 DEST_A
      RIGHT_TRACK (RequestKind.direction DIR_IN) CODE_TRAFDIR_REQ_IN DEST_TRAIN_0
      (by decide) (by decide)).1⟩


/-- C15: when destination `d` has been silent for more than 2 x the ping interval, one
`onTick` puts each of its tracks in `_LOST`, with no train identity, and clears its
PendingRequest; a "ready" from `d` then puts each of its tracks in `_IDLE` with the
direction `DIR_LOST` (unknown); and as long as no direction negotiation completes on the
track, a local train departure request is not accepted, an inbound train departure
request is not applied, and the track is in no train movement state. -/
theorem liveness_round_trip (e : Engine) (now now2 now3 d t : Nat) (evs : List Event)
    (orderCode train : Nat) (hd : d < DEST_BUTTONS) (ht : t < MAX_NUM_OF_TRACKS)
    (hsilent : 2 * TIME_PING_INTERVAL < now - e.lastSeen d)
    (hneg : negotiated (onReady (onTick e now) now2 d).1 d t evs = false) :
    ((onTick e now).track d t).state = _LOST
    ∧ ((onTick e now).track d t).train = DEST_TRAIN_0
    ∧ ((onTick e now).pending d).active = Q_INACTIVE
    ∧ ((onReady (onTick e now) now2 d).1.track d t).state = _IDLE
    ∧ ((onReady (onTick e now) now2 d).1.track d t).direction = DIR_LOST
    ∧ DIR_LOST ≠ DIR_OUT ∧ DIR_LOST ≠ DIR_IN
    ∧ ((run (onReady (onTick e now) now2 d).1 evs).track d t).direction = DIR_LOST
    ∧ trainMovement ((run (onReady (onTick e now) now2 d).1 evs).track d t).state = false
    ∧ (onLocalRequest (run (onReady (onTick e now) now2 d).1 evs) d t
        RequestKind.trainDeparture orderCode train).2 ≠ Outcome.accepted
    ∧ (onInboundMessage (run (onReady (onTick e now) now2 d).1 evs) now3 d t
        Inbound.trainRequest).2 ≠ Outcome.done := by
  obtain ⟨c0, c1, c2, c3, c4, c5, c6, c7, c8, c9, hout, hin⟩ := state_code_values
  have hl : DIR_LOST = 15 := rfl
  have hlost : isLost LIVENESS_MULTIPLE now (e.lastSeen d) = true := by
    rw [isLost_iff]
    exact hsilent
  have h1 : ((onTick e now).track d t).state = _LOST := by
    simp [onTick, hd, ht, hlost]
  have h2 : ((onTick e now).track d t).train = DEST_TRAIN_0 := by
    simp [onTick, hd, ht, hlost]
  have h3 : ((onTick e now).pending d).active = Q_INACTIVE := by
    simp [onTick, hd, hlost, PendingRequest.cleared]
  have h4 : ((onReady (onTick e now) now2 d).1.track d t).state = _IDLE := by
    simp [onReady, hd, ht, h1]
  have h5 : ((onReady (onTick e now) now2 d).1.track d t).direction = DIR_LOST := by
    simp [onReady, hd, ht, h1]
  have hst : trainMovement ((onReady (onTick e now) now2 d).1.track d t).state = false := by
    rw [h4]
    decide
  have hk := run_keeps_lost d t evs (onReady (onTick e now) now2 d).1 h5 hst hneg
  refine ⟨h1, h2, h3, h4, h5, by decide, by decide, hk.1, hk.2, ?_, ?_⟩
  · have hdir := hk.1
    generalize run (onReady (onTick e now) now2 d).1 evs = e3 at hdir
    cases hact : e3.slotActive d
    · simp [onLocalRequest, hd, ht, hact, hdir, hl, hout]
      split_ifs <;> simp
    · simp [onLocalRequest, hd, ht, hact]
  · have hdir := hk.1
    generalize run (onReady (onTick e now) now2 d).1 evs = e3 at hdir
    simp only [onInboundMessage, inboundTransition, hdir, hl, hin]
    split_ifs <;> simp_all

/-- Witness of C15: destination A, last seen at time 0, is silent at 25000 ms for more
than 2 x 10000 ms; after the tick and a "ready" at 30000 ms, the departure request for
train 447 on the left track is not accepted. -/
theorem liveness_round_trip_witness :
    2 * TIME_PING_INTERVAL < 25000 - exampleEngine.lastSeen DEST_A
    ∧ ((onTick exampleEngine 25000).track DEST_A LEFT_TRACK).state = _LOST
    ∧ (onLocalRequest (run (onReady (onTick exampleEngine 25000) 30000 DEST_A).1
          [exampleRequest]) DEST_A LEFT_TRACK RequestKind.trainDeparture CODE_TRAIN_OUT 447).2
        ≠ Outcome.accepted :=
  have h := liveness_round_trip exampleEngine 25000 30000 30001 DEST_A LEFT_TRACK
    [exampleRequest] CODE_TRAIN_OUT 447 (by decide) (by decide) (by decide) (by decide)
  ⟨by decide, h.1, h.2.2.2.2.2.2.2.2.2.1⟩

/-- C16: cancelling the PendingRequest of a destination whose slot is `Q_INACTIVE` is no
error and changes nothing, neither the slot nor any TrackState; and cancelling twice has
the same effect as cancelling once, whatever the slot. -/
theorem cancel_idempotent (e : Engine) (d : Nat) (h : (e.pending d).active = Q_INACTIVE) :
    onLocalCancel e d = (e, Outcome.done)
    ∧ step e (Event.localCancel d) = (e, Outcome.done)
    ∧ (onLocalCancel e d).1.pending d = e.pending d
    ∧ (∀ d2 t2 : Nat, (onLocalCancel e d).1.track d2 t2 = e.track d2 t2)
    ∧ (∀ (e2 : Engine) (d2 : Nat),
        onLocalCancel (onLocalCancel e2 d2).1 d2 = onLocalCancel e2 d2) := by
  have hq : Q_INACTIVE ≠ Q_ACTIVE := by decide
  have hnop : onLocalCancel e d = (e, Outcome.done) := by
    simp [onLocalCancel, Engine.slotActive, h, hq]
  refine ⟨hnop, hnop, by rw [hnop], fun d2 t2 => by rw [hnop], ?_⟩
  intro e2 d2
  by_cases hc : d2 < DEST_BUTTONS ∧ e2.slotActive d2 = true
  · have h1 : onLocalCancel e2 d2
        = (resolve (e2.setTrack d2 (e2.pending d2).track
            { e2.track d2 (e2.pending d2).track with state := _IDLE }) d2, Outcome.done) := by
      simp only [onLocalCancel, hc, and_self, if_true]
    rw [h1]
    simp [onLocalCancel, Engine.slotActive, resolve, Engine.setPending, PendingRequest.cleared,
      hq]
  · have h1 : onLocalCancel e2 d2 = (e2, Outcome.done) := by
      simp only [onLocalCancel, hc, if_false]
    rw [h1, h1]

/-- Witness of C16: at startup the slot of destination A is `Q_INACTIVE`, and cancelling
its PendingRequest is no error. -/
theorem cancel_idempotent_witness :
    (exampleEngine.pending DEST_A).active = Q_INACTIVE
    ∧ (onLocalCancel exampleEngine DEST_A).2 = Outcome.done :=
  ⟨by decide, congrArg Prod.snd (cancel_idempotent exampleEngine DEST_A (by decide)).1⟩

/-! ### The three generations of the state model -/

/-- C21: the map that sends each state of the 6-state header to the same-named state of
the 8-state header, and the map that sends each state of the 8-state header to the
same-named state of the 10-state header, are defined on every state, injective and
strictly order-preserving on the codes; the 8-state header adds only `STATE_TRAFDIR` and
`STATE_LOST`, the 10-state header only `_INACCEPT` and `_OUTACCEPT`; not-used is 0 and idle
is 1 in all three. The names agree up to the prefix of the header and up to the spelling
`STATE_OUREQUEST` of the outgoing request in the 6-state header, which carries the same
comment as `STATE_OUTREQUEST`. -/
theorem state_models_extend_in_order :
    extendsInOrder sixToEight SixState.stateDefs
    ∧ extendsInOrder eightToTen Ver110.stateDefs
    ∧ SixState.stateDefs.map (fun s => s.code) = SixState.states
    ∧ SixState.stateDefs.length = SixState.NUM_OF_STATES
    ∧ Ver110.stateDefs.map (fun s => s.code) = List.range Ver110.NUM_OF_STATES
    ∧ Ver110.stateDefs.length = Ver110.NUM_OF_STATES
    ∧ currentStateDefs.map (fun s => s.code) = List.range NUM_OF_STATES
    ∧ currentStateDefs.length = NUM_OF_STATES
    ∧ SixState.stateDefs.map (mappedCode sixToEight)
        = [some 0, some 1, some 3, some 4, some 5, some 6]
    ∧ Ver110.stateDefs.map (mappedCode eightToTen)
        = [some 0, some 1, some 2, some 3, some 5, some 6, some 8, some 9]
    ∧ SixState.stateDefs.map (fun s => (s.name, (sixToEight s).map (fun x => x.name)))
        = [("STATE_NOTUSED", some "STATE_NOTUSED"), ("STATE_IDLE", some "STATE_IDLE"),
           ("STATE_INREQUEST", some "STATE_INREQUEST"), ("STATE_INTRAIN", some "STATE_INTRAIN"),
           ("STATE_OUREQUEST", some "STATE_OUTREQUEST"),
           ("STATE_OUTTRAIN", some "STATE_OUTTRAIN")]
    ∧ Ver110.stateDefs.map (fun s => (s.name, (eightToTen s).map (fun x => x.name)))
        = [("STATE_NOTUSED", some "_NOTUSED"), ("STATE_IDLE", some "_IDLE"),
           ("STATE_TRAFDIR", some "_TRAFDIR"), ("STATE_INREQUEST", some "_INREQUEST"),
           ("STATE_INTRAIN", some "_INTRAIN"), ("STATE_OUTREQUEST", some "_OUTREQUEST"),
           ("STATE_OUTTRAIN", some "_OUTTRAIN"), ("STATE_LOST", some "_LOST")]
    ∧ Ver110.stateDefs.all (fun s =>
        (eightToTen s).any (fun x => "STATE" ++ x.name == s.name)) = true
    ∧ (stateNamed SixState.stateDefs "STATE_OUREQUEST").map (fun x => x.comment)
        = (stateNamed Ver110.stateDefs "STATE_OUTREQUEST").map (fun x => x.comment)
    ∧ (stateNamed SixState.stateDefs "STATE_OUREQUEST").map (fun x => x.comment)
        = some "Outgoing request"
    ∧ (addedStates sixToEight SixState.stateDefs Ver110.stateDefs).map (fun s => s.name)
        = ["STATE_TRAFDIR", "STATE_LOST"]
    ∧ (addedStates eightToTen Ver110.stateDefs currentStateDefs).map (fun s => s.name)
        = ["_INACCEPT", "_OUTACCEPT"]
    ∧ SixState.STATE_NOTUSED = 0 ∧ Ver110.STATE_NOTUSED = 0 ∧ _NOTUSED = 0
    ∧ SixState.STATE_IDLE = 1 ∧ Ver110.STATE_IDLE = 1 ∧ _IDLE = 1 := by
  unfold extendsInOrder
  decide

end MqttTamBox
